import Mathlib

/-!
The snapshot aggregator of keepalivedstate (`collector/collector.go`)

A shallow embedding of `KeepalivedCollector.GetKeepalivedStats`, of
`KeepalivedCollector.checkScript`, of `GetKeepalivedState` (`main.go`) and of the
data types they work on, followed by theorems about the merge of the data map
and the stats map, the fail-fast handling of source errors, the order of the
calls made on the `Collector` interface and the health-check probe.

Conventions of the embedding

* A Go slice is a `Slice`: `none` is the nil slice, `some xs` a non-nil slice
  holding `xs` (capacity is not modelled).
* A Go pointer `*T` is a `Ptr T`: `none` is the nil pointer.  Dereferencing nil
  panics; the panic is an explicit `Outcome`.
* A Go `map[string]T` is a `GoMap T`: a list of entries with pairwise distinct
  keys.  The order of the list is the order in which a `range` statement visits
  the entries; Go leaves that order unspecified, so a statement quantified over
  every `GoMap` covers every iteration order.
* The `Collector` interface is implemented outside the package.  It is a record
  of state transformers over an arbitrary state type; every method returns what
  Go returns (value and error together) and the next state.
* Every call on the interface is recorded in a trace, every `logrus` call in a
  log, both kept in the `World` threaded through the function.
* Go `int` is `Int`: the function does no arithmetic on the counters.
* The operating system is a parameter of `checkScript`: it gives the outcome of
  running a program with arguments.  A command that never completes is not
  modelled.
-/

namespace Keepalived

/-! ## Go values -/

/-- Go slice: `none` is the nil slice, `some xs` a non-nil slice with elements `xs`. -/
abbrev Slice (α : Type) := Option (List α)

/-- The slice built by `make([]T, 0)`: non-nil, no element. -/
def Slice.make0 {α : Type} : Slice α := some []

/-- Elements of a slice; a nil slice has none. -/
def Slice.elems {α : Type} : Slice α → List α
  | none => []
  | some xs => xs

/-- Go `len(s)`. -/
def Slice.len {α : Type} (s : Slice α) : Nat := s.elems.length

/-- Go `s == nil`. -/
def Slice.isNil {α : Type} (s : Slice α) : Bool := s.isNone

/-- Go `append(s, x)`: the result is never nil. -/
def Slice.append {α : Type} (s : Slice α) (x : α) : Slice α := some (s.elems ++ [x])

/-- Go pointer: `none` is nil. -/
abbrev Ptr (α : Type) := Option α

/-- Go `error` value, identified by the text of its `Error()` method; a nil
`error` is `none : Option GoError`. -/
structure GoError where
  msg : String
  deriving DecidableEq, Repr

/-- Go `errors.New(text)`. -/
def errorsNew (text : String) : GoError := ⟨text⟩

/-- First value stored under `k` in a list of entries. -/
def lookupKey {V : Type} (k : String) : List (String × V) → Option V
  | [] => none
  | (k', v) :: rest => if k' = k then some v else lookupKey k rest

/-- Go `map[string]V`.  `entries` lists the entries in the order in which a
`range` statement visits them; keys are pairwise distinct; a nil map has no
entry. -/
structure GoMap (V : Type) where
  entries : List (String × V)
  isNil : Bool
  keys_nodup : (entries.map Prod.fst).Nodup
  nil_empty : isNil = true → entries = []

/-- Keys of a map, in iteration order. -/
def GoMap.keys {V : Type} (m : GoMap V) : List String := m.entries.map Prod.fst

/-- Go `len(m)`. -/
def GoMap.len {V : Type} (m : GoMap V) : Nat := m.entries.length

/-- Go `v, ok := m[k]`: `some v` when `ok`, `none` otherwise. -/
def GoMap.get {V : Type} (m : GoMap V) (k : String) : Option V := lookupKey k m.entries

/-- The nil map. -/
def GoMap.nil {V : Type} : GoMap V := ⟨[], true, List.nodup_nil, fun _ => rfl⟩

/-- A non-nil map with the given entries. -/
def GoMap.ofList {V : Type} (es : List (String × V)) (h : (es.map Prod.fst).Nodup) : GoMap V :=
  ⟨es, false, h, fun h' => by cases h'⟩

/-! ## Data types of the package -/

/-- Go `VRRPStats`. -/
structure VRRPStats where
  AdvertRcvd : Int
  AdvertSent : Int
  BecomeMaster : Int
  ReleaseMaster : Int
  PacketLenErr : Int
  AdvertIntervalErr : Int
  IPTTLErr : Int
  InvalidTypeRcvd : Int
  AddrListErr : Int
  InvalidAuthType : Int
  AuthTypeMismatch : Int
  AuthFailure : Int
  PRIZeroRcvd : Int
  PRIZeroSent : Int
  deriving DecidableEq, Repr

/-- Go `VRRPData`. -/
structure VRRPData where
  IName : String
  State : Int
  WantState : Int
  Intf : String
  GArpDelay : Int
  VRID : Int
  VIPs : Slice String
  ExcludedVIPs : Slice String
  deriving DecidableEq, Repr

/-- Go `VRRPScript`. -/
structure VRRPScript where
  Name : String
  Status : String
  State : String
  deriving DecidableEq, Repr

/-- Go `VRRP`: ties together `VRRPData` and `VRRPStats`. -/
structure VRRP where
  Data : VRRPData
  Stats : VRRPStats
  deriving DecidableEq, Repr

/-- Go `KeepalivedStats`: ties together `VRRP` and `VRRPScript`. -/
structure KeepalivedStats where
  VRRPs : Slice VRRP
  Scripts : Slice VRRPScript
  deriving DecidableEq, Repr

/-! ## The `Collector` interface and its instrumented calls -/

/-- Methods that `GetKeepalivedStats` can reach on its receiver: the six methods
of the `Collector` interface and the two of the embedded `sync.Mutex`. -/
inductive Op where
  | Refresh
  | ScriptVrrps
  | DataVrrps
  | StatsVrrps
  | JSONVrrps
  | HasVRRPScriptStateSupport
  | Lock
  | Unlock
  deriving DecidableEq, Repr

/-- Go interface `Collector`, over the state `σ` of its implementation. -/
structure Collector (σ : Type) where
  Refresh : σ → Option GoError × σ
  ScriptVrrps : σ → (Slice VRRPScript × Option GoError) × σ
  DataVrrps : σ → (GoMap (Ptr VRRPData) × Option GoError) × σ
  StatsVrrps : σ → (GoMap (Ptr VRRPStats) × Option GoError) × σ
  JSONVrrps : σ → (Slice VRRP × Option GoError) × σ
  HasVRRPScriptStateSupport : σ → Bool × σ

/-- Go `KeepalivedCollector` (the embedded mutex has no field of its own: its
two methods are the `Op`s `Lock` and `Unlock`). -/
structure KeepalivedCollector (σ : Type) where
  useJSON : Bool
  scriptPath : String
  collector : Collector σ

/-- Go `NewKeepalivedCollector`. -/
def NewKeepalivedCollector {σ : Type} (useJSON : Bool) (scriptPath : String)
    (collector : Collector σ) : KeepalivedCollector σ :=
  { useJSON := useJSON, scriptPath := scriptPath, collector := collector }

/-- One recorded call: the method and the error it returned (`none` for nil, and
for the methods that return no error). -/
structure Call where
  op : Op
  err : Option GoError
  deriving DecidableEq, Repr

/-- One `logrus` record at error severity: its fields and its message. -/
structure LogEntry where
  fields : List (String × String)
  msg : String
  deriving DecidableEq, Repr

/-- What a call of `GetKeepalivedStats` acts on: the state of the data source,
the calls made so far and the records logged so far. -/
structure World (σ : Type) where
  state : σ
  trace : List Call
  logs : List LogEntry

/-- Initial world of a call: nothing called, nothing logged. -/
def World.init {σ : Type} (s : σ) : World σ := ⟨s, [], []⟩

/-- Invoke a method of the data source: run it on the state and record the call
together with the error it returned (`errOf` reads the error off the result). -/
def World.invoke {σ α : Type} (w : World σ) (op : Op) (f : σ → α × σ)
    (errOf : α → Option GoError) : α × World σ :=
  ((f w.state).1,
    { w with state := (f w.state).2, trace := w.trace ++ [⟨op, errOf (f w.state).1⟩] })

/-- Go `logrus.Error(msg)` / `logrus.WithField(..).Error(msg)`. -/
def World.logError {σ : Type} (w : World σ) (fields : List (String × String)) (msg : String) :
    World σ :=
  { w with logs := w.logs ++ [⟨fields, msg⟩] }

/-- How a call of `GetKeepalivedStats` ends: it returns its two results, or it
panics on a nil pointer dereference. -/
inductive Outcome where
  | returned (stats : Ptr KeepalivedStats) (err : Option GoError)
  | panicked
  deriving DecidableEq, Repr

/-- An outcome together with the world it leaves. -/
structure Run (σ : Type) where
  outcome : Outcome
  world : World σ

/-! ## `GetKeepalivedStats` -/

/-- Text of the error of the cardinality check (collector.go, line 128). -/
def notSyncedMsg : String := "keepalived.data and keepalived.stats datas are not synced"

/-- Text of the error of the merge loop (collector.go, line 140). -/
def noStatsMsg : String := "there is no stats found for instance"

/-- The loop `for instance, vData := range vrrpData` of lines 131-142, on the
entries still to visit, followed by the `return stats, nil` of line 144. -/
def mergeLoop {σ : Type} (vrrpStats : GoMap (Ptr VRRPStats)) :
    List (String × Ptr VRRPData) → KeepalivedStats → World σ → Run σ
  | [], stats, w => ⟨.returned (some stats) none, w⟩
  | (instanceKey, vData) :: rest, stats, w =>
    match vrrpStats.get instanceKey with
    | some vStat =>
      match vData with
      | none => ⟨.panicked, w⟩
      | some d =>
        match vStat with
        | none => ⟨.panicked, w⟩
        | some s =>
          mergeLoop vrrpStats rest
            { stats with VRRPs := stats.VRRPs.append { Data := d, Stats := s } } w
    | none =>
      ⟨.returned none (some (errorsNew noStatsMsg)),
        w.logError [("instance", instanceKey)] "There is no stats found for instance"⟩

/-- Go `(k *KeepalivedCollector) GetKeepalivedStats()`, from the world `w0`. -/
def GetKeepalivedStatsFrom {σ : Type} (k : KeepalivedCollector σ) (w0 : World σ) : Run σ :=
  let stats : KeepalivedStats := { VRRPs := Slice.make0, Scripts := Slice.make0 }
  let r1 := w0.invoke Op.Refresh k.collector.Refresh id
  match r1.1 with
  | some err => ⟨.returned none (some err), r1.2⟩
  | none =>
    if k.useJSON then
      let r2 := r1.2.invoke Op.JSONVrrps k.collector.JSONVrrps Prod.snd
      let stats : KeepalivedStats := { stats with VRRPs := r2.1.1 }
      match r2.1.2 with
      | some err => ⟨.returned none (some err), r2.2⟩
      | none => ⟨.returned (some stats) none, r2.2⟩
    else
      let r2 := r1.2.invoke Op.ScriptVrrps k.collector.ScriptVrrps Prod.snd
      let stats : KeepalivedStats := { stats with Scripts := r2.1.1 }
      match r2.1.2 with
      | some err => ⟨.returned none (some err), r2.2⟩
      | none =>
        let r3 := r2.2.invoke Op.StatsVrrps k.collector.StatsVrrps Prod.snd
        let vrrpStats := r3.1.1
        match r3.1.2 with
        | some err => ⟨.returned none (some err), r3.2⟩
        | none =>
          let r4 := r3.2.invoke Op.DataVrrps k.collector.DataVrrps Prod.snd
          let vrrpData := r4.1.1
          match r4.1.2 with
          | some err => ⟨.returned none (some err), r4.2⟩
          | none =>
            if vrrpData.len ≠ vrrpStats.len then
              ⟨.returned none (some (errorsNew notSyncedMsg)), r4.2.logError [] notSyncedMsg⟩
            else
              mergeLoop vrrpStats vrrpData.entries stats r4.2

/-- Go `(k *KeepalivedCollector) GetKeepalivedStats()`, called on a data source
in state `s`. -/
def GetKeepalivedStats {σ : Type} (k : KeepalivedCollector σ) (s : σ) : Run σ :=
  GetKeepalivedStatsFrom k (World.init s)

/-! ## `checkScript` -/

/-- How the run of an external command ends, as far as `cmd.Run` of `os/exec`
tells them apart: the process ran and exited with a status, or something else
went wrong (it could not be started, or its output could not be copied).  Both
carry what was written to standard output and standard error. -/
inductive ProcOutcome where
  | exited (status : Nat) (stdout stderr : String)
  | fault (err : GoError) (stdout stderr : String)
  deriving DecidableEq, Repr

/-- What `cmd.Run` leaves: the two buffers and the error it returns. -/
structure CmdResult where
  stdout : String
  stderr : String
  err : Option GoError
  deriving DecidableEq, Repr

/-- Go `cmd.Run()`: the error is nil exactly when the command ran and exited with
status zero; a non-zero status gives an `*ExitError`, whose text is "exit status
N"; any other problem gives its own error. -/
def cmdRun : ProcOutcome → CmdResult
  | .exited 0 out err => ⟨out, err, none⟩
  | .exited (n + 1) out err => ⟨out, err, some ⟨"exit status " ++ toString (n + 1)⟩⟩
  | .fault e out err => ⟨out, err, some e⟩

/-- The operating system, as `exec.Command(name, args...)` followed by `Run`
sees it: the outcome of running the program `name` with the arguments `args`. -/
abbrev Sys := String → List String → ProcOutcome

/-- The command line handed to the shell (the Go variable `script` of line 150). -/
def probeLine {σ : Type} (k : KeepalivedCollector σ) (vip : String) : String :=
  k.scriptPath ++ " " ++ vip

/-- Go `(k *KeepalivedCollector) checkScript(vip)`: the result and the log after
the call. -/
def checkScript {σ : Type} (k : KeepalivedCollector σ) (sys : Sys) (vip : String)
    (logs : List LogEntry) : Bool × List LogEntry :=
  let script := probeLine k vip
  let cmd := cmdRun (sys "/bin/sh" ["-c", script])
  match cmd.err with
  | some err =>
    (false, logs ++ [⟨[("VIP", vip), ("stdout", cmd.stdout), ("stderr", cmd.stderr),
      ("error", err.msg)], "Check script failed"⟩])
  | none => (true, logs)

/-! ## `GetKeepalivedState` (main.go) -/

/-- Go `GetKeepalivedState(pid)`.  The package `host` is not part of the sources
at hand: its constructor `NewKeepalivedHostCollectorHost` is a parameter, giving
the data source and the state it starts in. -/
def GetKeepalivedState {σ : Type}
    (NewKeepalivedHostCollectorHost : Bool → String → Collector σ × σ) (pid : String) :
    Run σ :=
  let keepalivedJSON := true
  let c := NewKeepalivedHostCollectorHost keepalivedJSON pid
  let coll := NewKeepalivedCollector keepalivedJSON "" c.1
  let r := GetKeepalivedStats coll c.2
  match r.outcome with
  | .returned stats err =>
    match err with
    | some e => ⟨.returned none (some e), r.world⟩
    | none => ⟨.returned stats none, r.world⟩
  | .panicked => ⟨.panicked, r.world⟩

/-! ## The shell, on plain command lines

`checkScript` hands its command line to `/bin/sh -c`.  What the shell makes of a
command line is not decided by the Go code; the fragment needed here is that of
POSIX shells on one-line simple commands without quoting, expansion or
operators, whose command name is a pathname: the words are the maximal runs of
non-blank characters, the first word is the command name and the others are its
arguments; a command name that contains a slash is run as the program at that
path (no reserved word, function, builtin or `PATH` search applies to it).
Every other command line is outside the fragment. -/

/-- Blank characters, which separate the words of a command: space and tab.  (A
newline ends a command; it is not a blank.) -/
def isBlank (c : Char) : Bool :=
  c = ' ' || c = Char.ofNat 9

/-- Characters that the shell takes literally wherever they stand in a word:
letters, digits and `. / _ - : , + @`. -/
def isPlain (c : Char) : Bool :=
  c.isAlphanum || c = '.' || c = '/' || c = '_' || c = '-' || c = ':' || c = ',' ||
    c = '+' || c = '@'

/-- Words of a command line made of plain characters and blanks only; `none`
for any other command line (outside the fragment described). -/
def shWords (line : String) : Option (List String) :=
  if line.toList.all (fun c => isPlain c || isBlank c) then
    some (((line.toList.splitOnP isBlank).filter (fun w => !w.isEmpty)).map String.mk)
  else
    none

/-- What `sh -c line` runs, for a command line of the fragment: the program at
the path that is its first word, with the other words as arguments.  `none` when
the line is outside the fragment, in particular when its first word has no
slash (it could then be a reserved word such as `if`, a function or a builtin). -/
def shCommand (line : String) : Option (String × List String) :=
  match shWords line with
  | some (cmd :: args) => if cmd.toList.contains '/' then some (cmd, args) else none
  | _ => none

/-! ## The answers of the data source in one cycle

What the data source answers when it is called from the state `s` in the order
of the code: `Refresh` first; then `JSONVrrps` (fast mode), or `ScriptVrrps`,
`StatsVrrps`, `DataVrrps` (legacy mode), each from the state left by the call
before it. -/

/-- Answer of `Refresh` called in state `s`. -/
def refreshAnswer {σ : Type} (k : KeepalivedCollector σ) (s : σ) : Option GoError × σ :=
  k.collector.Refresh s

/-- Answer of `JSONVrrps` called after `Refresh`. -/
def jsonAnswer {σ : Type} (k : KeepalivedCollector σ) (s : σ) :
    (Slice VRRP × Option GoError) × σ :=
  k.collector.JSONVrrps (refreshAnswer k s).2

/-- Answer of `ScriptVrrps` called after `Refresh`. -/
def scriptAnswer {σ : Type} (k : KeepalivedCollector σ) (s : σ) :
    (Slice VRRPScript × Option GoError) × σ :=
  k.collector.ScriptVrrps (refreshAnswer k s).2

/-- Answer of `StatsVrrps` called after `ScriptVrrps`. -/
def statsAnswer {σ : Type} (k : KeepalivedCollector σ) (s : σ) :
    (GoMap (Ptr VRRPStats) × Option GoError) × σ :=
  k.collector.StatsVrrps (scriptAnswer k s).2

/-- Answer of `DataVrrps` called after `StatsVrrps`. -/
def dataAnswer {σ : Type} (k : KeepalivedCollector σ) (s : σ) :
    (GoMap (Ptr VRRPData) × Option GoError) × σ :=
  k.collector.DataVrrps (statsAnswer k s).2

/-! ## A configurable data source, used to evaluate the function -/

/-- Canned answers of a data source. -/
structure Stub where
  refreshErr : Option GoError
  scripts : Slice VRRPScript × Option GoError
  stats : GoMap (Ptr VRRPStats) × Option GoError
  data : GoMap (Ptr VRRPData) × Option GoError
  json : Slice VRRP × Option GoError

/-- Data source that gives the canned answers of `t`; its state counts the
calls it has received. -/
def Stub.collector (t : Stub) : Collector Nat where
  Refresh := fun n => (t.refreshErr, n + 1)
  ScriptVrrps := fun n => (t.scripts, n + 1)
  DataVrrps := fun n => (t.data, n + 1)
  StatsVrrps := fun n => (t.stats, n + 1)
  JSONVrrps := fun n => (t.json, n + 1)
  HasVRRPScriptStateSupport := fun n => (true, n + 1)

/-- A `VRRPStats` with every counter equal to `n`. -/
def statsOf (n : Int) : VRRPStats :=
  ⟨n, n, n, n, n, n, n, n, n, n, n, n, n, n⟩

/-- A `VRRPData` named `name` with virtual router id `vrid` on `eth0`. -/
def dataOf (name : String) (vrid : Int) : VRRPData :=
  { IName := name, State := 2, WantState := 2, Intf := "eth0", GArpDelay := 5, VRID := vrid,
    VIPs := some ["10.0.0.1"], ExcludedVIPs := none }

/-- A source error. -/
def errBoom : GoError := ⟨"boom"⟩

/-- One script record. -/
def scriptA : VRRPScript := ⟨"chk", "GOOD", "idle"⟩

/-- Data map with the keys VI_1 and VI_2, both non-nil. -/
def dataMap12 : GoMap (Ptr VRRPData) :=
  GoMap.ofList [("VI_1", some (dataOf "VI_1" 51)), ("VI_2", some (dataOf "VI_2" 52))] (by decide)

/-- Stats map with the keys VI_2 and VI_1, both non-nil. -/
def statsMap21 : GoMap (Ptr VRRPStats) :=
  GoMap.ofList [("VI_2", some (statsOf 20)), ("VI_1", some (statsOf 10))] (by decide)

/-- Stats map with the single key VI_1. -/
def statsMap1 : GoMap (Ptr VRRPStats) :=
  GoMap.ofList [("VI_1", some (statsOf 10))] (by decide)

/-- Legacy-mode source whose four calls succeed, with maps on the same two keys. -/
def stubSynced : Stub :=
  { refreshErr := none, scripts := (some [scriptA], none), stats := (statsMap21, none),
    data := (dataMap12, none), json := (none, none) }

/-- Legacy-mode source whose four calls succeed, with two data entries and one
stats entry. -/
def stubCountMismatch : Stub :=
  { stubSynced with stats := (statsMap1, none) }

/-- Data map with the keys VI_1 (a nil pointer) and VI_2. -/
def dataMapNil1 : GoMap (Ptr VRRPData) :=
  GoMap.ofList [("VI_1", none), ("VI_2", some (dataOf "VI_2" 52))] (by decide)

/-- Stats map with the keys VI_1 and VI_3, both non-nil. -/
def statsMap13 : GoMap (Ptr VRRPStats) :=
  GoMap.ofList [("VI_1", some (statsOf 10)), ("VI_3", some (statsOf 30))] (by decide)

/-- Legacy-mode source whose four calls succeed: as many data entries as stats
entries, VI_2 without stats and VI_3 without data, all pointers non-nil. -/
def stubKeyMismatch : Stub :=
  { stubSynced with stats := (statsMap13, none) }

/-- Legacy-mode source whose four calls succeed: as many data entries as stats
entries, different key sets, and a nil data pointer under the common key VI_1,
which the loop visits first. -/
def stubKeyMismatchNil : Stub :=
  { stubSynced with stats := (statsMap13, none), data := (dataMapNil1, none) }

/-- Fast-mode source: `Refresh` succeeds and `JSONVrrps` returns one pair. -/
def stubJSON : Stub :=
  { stubSynced with json := (some [⟨dataOf "VI_1" 51, statsOf 10⟩], none) }

/-- Source whose `Refresh` fails. -/
def stubRefreshFails : Stub :=
  { stubSynced with refreshErr := some errBoom }

/-- Legacy-mode source whose four calls succeed, `ScriptVrrps` returning a nil
slice. -/
def stubNilScripts : Stub :=
  { stubSynced with scripts := (none, none) }

/-- Legacy-mode aggregator on `stubSynced`. -/
def legacySynced : KeepalivedCollector Nat := ⟨false, "", stubSynced.collector⟩

/-- The snapshot `legacySynced` returns. -/
def snapSynced : KeepalivedStats :=
  ⟨some [⟨dataOf "VI_1" 51, statsOf 10⟩, ⟨dataOf "VI_2" 52, statsOf 20⟩], some [scriptA]⟩

/-- Legacy-mode aggregator on a source whose `StatsVrrps` fails. -/
def legacyStatsFails : KeepalivedCollector Nat :=
  ⟨false, "", { stubSynced with stats := (GoMap.nil, some errBoom) }.collector⟩

/-- Fast-mode aggregator on `stubJSON`. -/
def fastJSON : KeepalivedCollector Nat := ⟨true, "", stubJSON.collector⟩

/-- Stats map with a nil pointer under VI_1. -/
def statsMapNil1 : GoMap (Ptr VRRPStats) :=
  GoMap.ofList [("VI_1", none)] (by decide)

/-- Data map with the single key VI_1. -/
def dataMap1 : GoMap (Ptr VRRPData) :=
  GoMap.ofList [("VI_1", some (dataOf "VI_1" 51))] (by decide)

/-- Legacy-mode aggregator on a source whose four calls succeed, with the same
single key in both maps and a nil stats pointer under it. -/
def legacyNilStats : KeepalivedCollector Nat :=
  ⟨false, "", { stubSynced with stats := (statsMapNil1, none), data := (dataMap1, none) }.collector⟩

/-- Aggregator configured with a check script. -/
def probeAgg : KeepalivedCollector Nat := ⟨false, "/etc/keepalived/check.sh", stubSynced.collector⟩

/-- Legacy-mode aggregator on a source whose four calls succeed and whose two
maps are nil. -/
def legacyNilMaps : KeepalivedCollector Nat :=
  ⟨false, "", { stubSynced with stats := (GoMap.nil, none), data := (GoMap.nil, none) }.collector⟩

/-- The data map of `stubKeyMismatchNil`, visited in the other order: VI_2, then
VI_1 (a nil pointer). -/
def dataMapNil1Rev : GoMap (Ptr VRRPData) :=
  GoMap.ofList [("VI_2", some (dataOf "VI_2" 52)), ("VI_1", none)] (by decide)

/-- The source `stubKeyMismatchNil` with the data map visited in the other order. -/
def stubKeyMismatchNilRev : Stub :=
  { stubKeyMismatchNil with data := (dataMapNil1Rev, none) }

/-- The data map of `stubSynced`, visited in the other order. -/
def dataMap21 : GoMap (Ptr VRRPData) :=
  GoMap.ofList [("VI_2", some (dataOf "VI_2" 52)), ("VI_1", some (dataOf "VI_1" 51))] (by decide)

/-- Legacy-mode aggregator on `stubSynced` with the data map visited in the other
order. -/
def legacySyncedRev : KeepalivedCollector Nat :=
  ⟨false, "", { stubSynced with data := (dataMap21, none) }.collector⟩

/-- A constructor of the host data source: `stubJSON`, starting in state 0,
whatever the pid. -/
def hostStub : Bool → String → Collector Nat × Nat := fun _ _ => (stubJSON.collector, 0)

/-! ## Lookup in a list of entries -/

theorem lookupKey_eq_none_iff {V : Type} (k : String) (es : List (String × V)) :
    lookupKey k es = none ↔ k ∉ es.map Prod.fst := by
  induction es with
  | nil => simp [lookupKey]
  | cons e rest ih =>
    obtain ⟨k', v⟩ := e
    by_cases h : k' = k
    · simp [lookupKey, h]
    · have h' : ¬ k = k' := fun e => h e.symm
      simp [lookupKey, h, h', ih]

theorem lookupKey_some_mem {V : Type} (k : String) (v : V) (es : List (String × V))
    (h : lookupKey k es = some v) : (k, v) ∈ es := by
  induction es with
  | nil => simp [lookupKey] at h
  | cons e rest ih =>
    obtain ⟨k', v'⟩ := e
    by_cases hk : k' = k
    · simp [lookupKey, hk] at h
      simp [hk, h]
    · simp [lookupKey, hk] at h
      exact List.mem_cons_of_mem _ (ih h)

theorem lookupKey_of_mem {V : Type} (k : String) (v : V) (es : List (String × V))
    (hnd : (es.map Prod.fst).Nodup) (h : (k, v) ∈ es) : lookupKey k es = some v := by
  induction es with
  | nil => simp at h
  | cons e rest ih =>
    obtain ⟨k', v'⟩ := e
    simp only [List.map_cons, List.nodup_cons] at hnd
    rcases List.mem_cons.mp h with heq | hin
    · cases heq
      simp [lookupKey]
    · have hk : k' ≠ k := by
        intro hkk
        apply hnd.1
        rw [hkk]
        exact List.mem_map_of_mem Prod.fst hin
      simp [lookupKey, hk, ih hnd.2 hin]

theorem GoMap.get_eq_none_iff {V : Type} (m : GoMap V) (k : String) :
    m.get k = none ↔ k ∉ m.keys :=
  lookupKey_eq_none_iff k m.entries

theorem GoMap.get_of_mem {V : Type} (m : GoMap V) (k : String) (v : V)
    (h : (k, v) ∈ m.entries) : m.get k = some v :=
  lookupKey_of_mem k v m.entries m.keys_nodup h

theorem GoMap.mem_of_get {V : Type} (m : GoMap V) (k : String) (v : V)
    (h : m.get k = some v) : (k, v) ∈ m.entries :=
  lookupKey_some_mem k v m.entries h

/-- Two maps with the same keys have the same number of entries. -/
theorem GoMap.len_eq_of_keys {V W : Type} (a : GoMap V) (b : GoMap W)
    (h : ∀ key, key ∈ a.keys ↔ key ∈ b.keys) : a.len = b.len := by
  have hp : a.keys.Perm b.keys := (List.perm_ext_iff_of_nodup a.keys_nodup b.keys_nodup).mpr h
  have := hp.length_eq
  simpa [GoMap.keys, GoMap.len] using this

/-- Pigeonhole: with as many entries on both sides, keys of `a` all present in
`b` exhaust the keys of `b`. -/
theorem GoMap.keys_subset_antisymm {V W : Type} (a : GoMap V) (b : GoMap W)
    (hlen : a.len = b.len) (hsub : ∀ key, key ∈ a.keys → key ∈ b.keys) :
    ∀ key, key ∈ b.keys → key ∈ a.keys := by
  have hsp : a.keys.Subperm b.keys := List.subperm_of_subset a.keys_nodup hsub
  have hle : b.keys.length ≤ a.keys.length := by
    simp only [GoMap.keys, List.length_map]
    simp only [GoMap.len] at hlen
    omega
  have hp : a.keys.Perm b.keys := hsp.perm_of_length_le hle
  intro key hk
  exact hp.symm.subset hk

/-! ## The run of `GetKeepalivedStats` when the source calls succeed -/

/-- World left by the four legacy-mode calls when all succeed. -/
theorem legacy_reads_ok {σ : Type} (k : KeepalivedCollector σ) (s0 s1 s2 s3 s4 : σ)
    (scripts : Slice VRRPScript) (sm : GoMap (Ptr VRRPStats)) (dm : GoMap (Ptr VRRPData))
    (hmode : k.useJSON = false)
    (hR : k.collector.Refresh s0 = (none, s1))
    (hS : k.collector.ScriptVrrps s1 = ((scripts, none), s2))
    (hT : k.collector.StatsVrrps s2 = ((sm, none), s3))
    (hD : k.collector.DataVrrps s3 = ((dm, none), s4)) :
    GetKeepalivedStats k s0 =
      if dm.len ≠ sm.len then
        ⟨.returned none (some (errorsNew notSyncedMsg)),
          ⟨s4, [⟨Op.Refresh, none⟩, ⟨Op.ScriptVrrps, none⟩, ⟨Op.StatsVrrps, none⟩,
            ⟨Op.DataVrrps, none⟩], [⟨[], notSyncedMsg⟩]⟩⟩
      else
        mergeLoop sm dm.entries ⟨Slice.make0, scripts⟩
          ⟨s4, [⟨Op.Refresh, none⟩, ⟨Op.ScriptVrrps, none⟩, ⟨Op.StatsVrrps, none⟩,
            ⟨Op.DataVrrps, none⟩], []⟩ := by
  simp [GetKeepalivedStats, GetKeepalivedStatsFrom, World.invoke, World.init, World.logError,
    hmode, hR, hS, hT, hD]

/-! ## The shapes of a run -/

/-- `Refresh` fails: the error is returned after that single call. -/
theorem run_refresh_err {σ : Type} (k : KeepalivedCollector σ) (s : σ) (e : GoError)
    (hR : (refreshAnswer k s).1 = some e) :
    GetKeepalivedStats k s =
      ⟨.returned none (some e), ⟨(refreshAnswer k s).2, [⟨Op.Refresh, some e⟩], []⟩⟩ := by
  simp only [refreshAnswer] at hR
  simp [GetKeepalivedStats, GetKeepalivedStatsFrom, World.invoke, World.init, refreshAnswer, hR]

/-- Fast mode, `Refresh` succeeds, `JSONVrrps` fails. -/
theorem run_json_err {σ : Type} (k : KeepalivedCollector σ) (s : σ) (e : GoError)
    (hmode : k.useJSON = true) (hR : (refreshAnswer k s).1 = none)
    (hJ : (jsonAnswer k s).1.2 = some e) :
    GetKeepalivedStats k s =
      ⟨.returned none (some e),
        ⟨(jsonAnswer k s).2, [⟨Op.Refresh, none⟩, ⟨Op.JSONVrrps, some e⟩], []⟩⟩ := by
  simp only [refreshAnswer, jsonAnswer] at hR hJ
  simp [GetKeepalivedStats, GetKeepalivedStatsFrom, World.invoke, World.init, refreshAnswer,
    jsonAnswer, hmode, hR, hJ]

/-- Fast mode, `Refresh` and `JSONVrrps` succeed. -/
theorem run_json_ok {σ : Type} (k : KeepalivedCollector σ) (s : σ)
    (hmode : k.useJSON = true) (hR : (refreshAnswer k s).1 = none)
    (hJ : (jsonAnswer k s).1.2 = none) :
    GetKeepalivedStats k s =
      ⟨.returned (some ⟨(jsonAnswer k s).1.1, Slice.make0⟩) none,
        ⟨(jsonAnswer k s).2, [⟨Op.Refresh, none⟩, ⟨Op.JSONVrrps, none⟩], []⟩⟩ := by
  simp only [refreshAnswer, jsonAnswer] at hR hJ
  simp [GetKeepalivedStats, GetKeepalivedStatsFrom, World.invoke, World.init, refreshAnswer,
    jsonAnswer, hmode, hR, hJ]

/-- Legacy mode, `Refresh` succeeds, `ScriptVrrps` fails. -/
theorem run_script_err {σ : Type} (k : KeepalivedCollector σ) (s : σ) (e : GoError)
    (hmode : k.useJSON = false) (hR : (refreshAnswer k s).1 = none)
    (hS : (scriptAnswer k s).1.2 = some e) :
    GetKeepalivedStats k s =
      ⟨.returned none (some e),
        ⟨(scriptAnswer k s).2, [⟨Op.Refresh, none⟩, ⟨Op.ScriptVrrps, some e⟩], []⟩⟩ := by
  simp only [refreshAnswer, scriptAnswer] at hR hS
  simp [GetKeepalivedStats, GetKeepalivedStatsFrom, World.invoke, World.init, refreshAnswer,
    scriptAnswer, hmode, hR, hS]

/-- Legacy mode, `Refresh` and `ScriptVrrps` succeed, `StatsVrrps` fails. -/
theorem run_stats_err {σ : Type} (k : KeepalivedCollector σ) (s : σ) (e : GoError)
    (hmode : k.useJSON = false) (hR : (refreshAnswer k s).1 = none)
    (hS : (scriptAnswer k s).1.2 = none) (hT : (statsAnswer k s).1.2 = some e) :
    GetKeepalivedStats k s =
      ⟨.returned none (some e),
        ⟨(statsAnswer k s).2,
          [⟨Op.Refresh, none⟩, ⟨Op.ScriptVrrps, none⟩, ⟨Op.StatsVrrps, some e⟩], []⟩⟩ := by
  simp only [refreshAnswer, scriptAnswer, statsAnswer] at hR hS hT
  simp [GetKeepalivedStats, GetKeepalivedStatsFrom, World.invoke, World.init, refreshAnswer,
    scriptAnswer, statsAnswer, hmode, hR, hS, hT]

/-- Legacy mode, the first three calls succeed, `DataVrrps` fails. -/
theorem run_data_err {σ : Type} (k : KeepalivedCollector σ) (s : σ) (e : GoError)
    (hmode : k.useJSON = false) (hR : (refreshAnswer k s).1 = none)
    (hS : (scriptAnswer k s).1.2 = none) (hT : (statsAnswer k s).1.2 = none)
    (hD : (dataAnswer k s).1.2 = some e) :
    GetKeepalivedStats k s =
      ⟨.returned none (some e),
        ⟨(dataAnswer k s).2,
          [⟨Op.Refresh, none⟩, ⟨Op.ScriptVrrps, none⟩, ⟨Op.StatsVrrps, none⟩,
            ⟨Op.DataVrrps, some e⟩], []⟩⟩ := by
  simp only [refreshAnswer, scriptAnswer, statsAnswer, dataAnswer] at hR hS hT hD
  simp [GetKeepalivedStats, GetKeepalivedStatsFrom, World.invoke, World.init, refreshAnswer,
    scriptAnswer, statsAnswer, dataAnswer, hmode, hR, hS, hT, hD]

/-- Legacy mode, the four calls succeed: the cardinality check, then the loop. -/
theorem run_legacy_ok {σ : Type} (k : KeepalivedCollector σ) (s : σ)
    (hmode : k.useJSON = false) (hR : (refreshAnswer k s).1 = none)
    (hS : (scriptAnswer k s).1.2 = none) (hT : (statsAnswer k s).1.2 = none)
    (hD : (dataAnswer k s).1.2 = none) :
    GetKeepalivedStats k s =
      if (dataAnswer k s).1.1.len ≠ (statsAnswer k s).1.1.len then
        ⟨.returned none (some (errorsNew notSyncedMsg)),
          ⟨(dataAnswer k s).2,
            [⟨Op.Refresh, none⟩, ⟨Op.ScriptVrrps, none⟩, ⟨Op.StatsVrrps, none⟩,
              ⟨Op.DataVrrps, none⟩], [⟨[], notSyncedMsg⟩]⟩⟩
      else
        mergeLoop (statsAnswer k s).1.1 (dataAnswer k s).1.1.entries
          ⟨Slice.make0, (scriptAnswer k s).1.1⟩
          ⟨(dataAnswer k s).2,
            [⟨Op.Refresh, none⟩, ⟨Op.ScriptVrrps, none⟩, ⟨Op.StatsVrrps, none⟩,
              ⟨Op.DataVrrps, none⟩], []⟩ := by
  simp only [refreshAnswer, scriptAnswer, statsAnswer, dataAnswer] at hR hS hT hD
  simp [GetKeepalivedStats, GetKeepalivedStatsFrom, World.invoke, World.init, World.logError,
    refreshAnswer, scriptAnswer, statsAnswer, dataAnswer, hmode, hR, hS, hT, hD]

/-! ## The merge loop -/

/-- The loop calls nothing on the data source: state and trace are unchanged. -/
theorem mergeLoop_world {σ : Type} (sm : GoMap (Ptr VRRPStats))
    (es : List (String × Ptr VRRPData)) (stats : KeepalivedStats) (w : World σ) :
    (mergeLoop sm es stats w).world.state = w.state ∧
      (mergeLoop sm es stats w).world.trace = w.trace := by
  induction es generalizing stats with
  | nil => simp [mergeLoop]
  | cons e rest ih =>
    obtain ⟨key, p⟩ := e
    rcases hget : sm.get key with _ | q
    · simp [mergeLoop, hget, World.logError]
    · rcases p with _ | d
      · simp [mergeLoop, hget]
      · rcases q with _ | st
        · simp [mergeLoop, hget]
        · simpa [mergeLoop, hget] using ih _

/-- When every visited key has non-nil data and a non-nil stats entry, the loop
appends one pair per entry, in iteration order, and returns the snapshot. -/
theorem mergeLoop_complete {σ : Type} (sm : GoMap (Ptr VRRPStats))
    (es : List (String × Ptr VRRPData)) (xs : List VRRP) (scripts : Slice VRRPScript)
    (w : World σ)
    (h : ∀ e ∈ es, ∃ d st, e.2 = some d ∧ sm.get e.1 = some (some st)) :
    ∃ ys : List VRRP,
      mergeLoop sm es ⟨some xs, scripts⟩ w = ⟨.returned (some ⟨some (xs ++ ys), scripts⟩) none, w⟩ ∧
      List.Forall₂ (fun e v => e.2 = some v.Data ∧ sm.get e.1 = some (some v.Stats)) es ys := by
  induction es generalizing xs with
  | nil => exact ⟨[], by simp [mergeLoop], List.Forall₂.nil⟩
  | cons e rest ih =>
    obtain ⟨key, p⟩ := e
    obtain ⟨d, st, hp, hst⟩ := h (key, p) (List.mem_cons_self _ _)
    simp only at hp hst
    obtain ⟨ys, hrun, hall⟩ := ih (xs ++ [⟨d, st⟩]) (fun e he => h e (List.mem_cons_of_mem _ he))
    refine ⟨⟨d, st⟩ :: ys, ?_, List.Forall₂.cons ⟨hp, hst⟩ hall⟩
    subst hp
    simp only [mergeLoop, hst, Slice.append, Slice.elems]
    rw [hrun]
    simp

/-- When some visited key has no stats entry and no key present on both sides
holds a nil pointer, the loop ends on the error of line 140, whatever the order
of the entries. -/
theorem mergeLoop_missing {σ : Type} (sm : GoMap (Ptr VRRPStats))
    (es : List (String × Ptr VRRPData)) (stats : KeepalivedStats) (w : World σ)
    (hmiss : ∃ e ∈ es, sm.get e.1 = none)
    (hnn : ∀ e ∈ es, ∀ q, sm.get e.1 = some q → e.2 ≠ none ∧ q ≠ none) :
    ∃ key, (key ∈ es.map Prod.fst ∧ sm.get key = none) ∧
      mergeLoop sm es stats w =
        ⟨.returned none (some (errorsNew noStatsMsg)),
          w.logError [("instance", key)] "There is no stats found for instance"⟩ := by
  induction es generalizing stats with
  | nil =>
    obtain ⟨e, he, _⟩ := hmiss
    simp at he
  | cons e rest ih =>
    obtain ⟨key, p⟩ := e
    rcases hget : sm.get key with _ | q
    · exact ⟨key, ⟨by simp, hget⟩, by simp [mergeLoop, hget]⟩
    · obtain ⟨hp, hq⟩ := hnn (key, p) (List.mem_cons_self _ _) q hget
      obtain ⟨d, rfl⟩ := Option.ne_none_iff_exists'.mp hp
      obtain ⟨st, rfl⟩ := Option.ne_none_iff_exists'.mp hq
      have hmiss' : ∃ e ∈ rest, sm.get e.1 = none := by
        obtain ⟨e, he, hnone⟩ := hmiss
        rcases List.mem_cons.mp he with heq | hin
        · subst heq
          simp [hget] at hnone
        · exact ⟨e, hin, hnone⟩
      obtain ⟨key', ⟨hk1, hk2⟩, hrun⟩ :=
        ih { stats with VRRPs := stats.VRRPs.append { Data := d, Stats := st } } hmiss'
          (fun e he => hnn e (List.mem_cons_of_mem _ he))
      refine ⟨key', ⟨List.mem_cons_of_mem _ hk1, hk2⟩, ?_⟩
      simp only [mergeLoop, hget]
      exact hrun

/-- Every entry of a list paired off with another has its partner in it. -/
theorem exists_partner {α β : Type} (R : α → β → Prop) (l₁ : List α) (l₂ : List β)
    (h : List.Forall₂ R l₁ l₂) (a : α) (ha : a ∈ l₁) : ∃ b, b ∈ l₂ ∧ R a b := by
  induction h with
  | nil => simp at ha
  | @cons x y xs ys hxy _ ih =>
    rcases List.mem_cons.mp ha with heq | hin
    · exact ⟨y, List.mem_cons_self _ _, heq ▸ hxy⟩
    · obtain ⟨b, hb, hr⟩ := ih hin
      exact ⟨b, List.mem_cons_of_mem _ hb, hr⟩

/-- Number of elements equal to `v` in a list paired off with the entries. -/
theorem count_of_forall₂ (sm : GoMap (Ptr VRRPStats)) (es : List (String × Ptr VRRPData))
    (ys : List VRRP)
    (h : List.Forall₂ (fun e v => e.2 = some v.Data ∧ sm.get e.1 = some (some v.Stats)) es ys)
    (v : VRRP) :
    ys.count v =
      (es.filter (fun e => decide (e.2 = some v.Data ∧ sm.get e.1 = some (some v.Stats)))).length := by
  induction h with
  | nil => simp
  | @cons e y es ys hey _ ih =>
    by_cases hv : y = v
    · subst hv
      simp [hey.1, hey.2, ih]
    · have hne : ¬ (e.2 = some v.Data ∧ sm.get e.1 = some (some v.Stats)) := by
        rintro ⟨h1, h2⟩
        apply hv
        rw [hey.1] at h1
        rw [hey.2] at h2
        cases y
        cases v
        simp_all
      rw [List.count_cons_of_ne (fun h => hv h.symm), ih, List.filter_cons_of_neg (by simpa using hne)]

/-- A snapshot returned by the loop comes with a nil error, keeps the scripts,
and extends the pairs built so far by one pair per entry, in iteration order;
every visited key then has stats. -/
theorem mergeLoop_returned_some {σ : Type} (sm : GoMap (Ptr VRRPStats))
    (es : List (String × Ptr VRRPData)) (xs : List VRRP) (scripts : Slice VRRPScript)
    (w : World σ) (snap : KeepalivedStats) (err : Option GoError)
    (h : (mergeLoop sm es ⟨some xs, scripts⟩ w).outcome = .returned (some snap) err) :
    err = none ∧ ∃ ys : List VRRP, snap = ⟨some (xs ++ ys), scripts⟩ ∧
      List.Forall₂ (fun e v => e.2 = some v.Data ∧ sm.get e.1 = some (some v.Stats)) es ys := by
  induction es generalizing xs with
  | nil =>
    simp only [mergeLoop, Outcome.returned.injEq, Option.some.injEq] at h
    exact ⟨h.2.symm, [], by simp [← h.1], List.Forall₂.nil⟩
  | cons e rest ih =>
    obtain ⟨key, p⟩ := e
    rcases hget : sm.get key with _ | q
    · simp [mergeLoop, hget] at h
    · rcases p with _ | d
      · simp [mergeLoop, hget] at h
      · rcases q with _ | st
        · simp [mergeLoop, hget] at h
        · simp only [mergeLoop, hget, Slice.append, Slice.elems] at h
          obtain ⟨herr, ys, hsnap, hall⟩ := ih (xs ++ [⟨d, st⟩]) h
          refine ⟨herr, ⟨d, st⟩ :: ys, ?_, List.Forall₂.cons ⟨rfl, hget⟩ hall⟩
          simpa using hsnap

/-- Without a nil pointer under a key present on both sides, the loop returns:
either the snapshot and a nil error, or a nil snapshot and an error. -/
theorem mergeLoop_returns {σ : Type} (sm : GoMap (Ptr VRRPStats))
    (es : List (String × Ptr VRRPData)) (xs : List VRRP) (scripts : Slice VRRPScript)
    (w : World σ)
    (hnn : ∀ e ∈ es, ∀ q, sm.get e.1 = some q → e.2 ≠ none ∧ q ≠ none) :
    (∃ snap, (mergeLoop sm es ⟨some xs, scripts⟩ w).outcome = .returned (some snap) none) ∨
      (∃ err, (mergeLoop sm es ⟨some xs, scripts⟩ w).outcome = .returned none (some err)) := by
  by_cases hmiss : ∃ e ∈ es, sm.get e.1 = none
  · obtain ⟨key, _, hrun⟩ := mergeLoop_missing sm es ⟨some xs, scripts⟩ w hmiss hnn
    exact Or.inr ⟨_, by rw [hrun]⟩
  · have hall : ∀ e ∈ es, ∃ d st, e.2 = some d ∧ sm.get e.1 = some (some st) := by
      intro e he
      have hsome : sm.get e.1 ≠ none := fun hnone => hmiss ⟨e, he, hnone⟩
      obtain ⟨q, hq⟩ := Option.ne_none_iff_exists'.mp hsome
      obtain ⟨hp, hq'⟩ := hnn e he q hq
      obtain ⟨d, hd⟩ := Option.ne_none_iff_exists'.mp hp
      obtain ⟨st, hst⟩ := Option.ne_none_iff_exists'.mp hq'
      exact ⟨d, st, hd, by rw [hq, hst]⟩
    obtain ⟨ys, hrun, _⟩ := mergeLoop_complete sm es xs scripts w hall
    exact Or.inl ⟨_, by rw [hrun]⟩

/-! ## Merge of the two maps -/

/-- C1 (bijective merge).  In legacy mode, when `Refresh`, `ScriptVrrps`,
`StatsVrrps` and `DataVrrps` succeed and the data map and the stats map have the
same key set, of size `N`, with no nil entry, `GetKeepalivedStats` returns a nil
error and a snapshot whose `VRRPs` has exactly `N` elements, paired off with the
entries of the data map in iteration order: the element of an entry has the
`VRRPData` stored under its key as `Data` and the `VRRPStats` stored under the
same key as `Stats`.  For every key there is exactly one element with the data
and stats stored under it, and an element occurs as many times as there are
keys storing it. -/
theorem bijective_merge {σ : Type} (k : KeepalivedCollector σ) (s0 s1 s2 s3 s4 : σ)
    (scripts : Slice VRRPScript) (sm : GoMap (Ptr VRRPStats)) (dm : GoMap (Ptr VRRPData))
    (N : Nat)
    (hmode : k.useJSON = false)
    (hR : k.collector.Refresh s0 = (none, s1))
    (hS : k.collector.ScriptVrrps s1 = ((scripts, none), s2))
    (hT : k.collector.StatsVrrps s2 = ((sm, none), s3))
    (hD : k.collector.DataVrrps s3 = ((dm, none), s4))
    (hkeys : ∀ key, key ∈ dm.keys ↔ key ∈ sm.keys)
    (hN : dm.len = N)
    (hdnn : ∀ e ∈ dm.entries, e.2 ≠ none)
    (hsnn : ∀ e ∈ sm.entries, e.2 ≠ none) :
    ∃ vrrps : List VRRP,
      (GetKeepalivedStats k s0).outcome = .returned (some ⟨some vrrps, scripts⟩) none ∧
      vrrps.length = N ∧
      List.Forall₂ (fun e v => e.2 = some v.Data ∧ sm.get e.1 = some (some v.Stats))
        dm.entries vrrps ∧
      (∀ key d st, dm.get key = some (some d) → sm.get key = some (some st) →
        ∃! v, v ∈ vrrps ∧ v.Data = d ∧ v.Stats = st) ∧
      (∀ v, vrrps.count v =
        (dm.entries.filter
          (fun e => decide (e.2 = some v.Data ∧ sm.get e.1 = some (some v.Stats)))).length) := by
  have hlen : dm.len = sm.len := GoMap.len_eq_of_keys dm sm hkeys
  have hall : ∀ e ∈ dm.entries, ∃ d st, e.2 = some d ∧ sm.get e.1 = some (some st) := by
    intro e he
    obtain ⟨d, hd⟩ := Option.ne_none_iff_exists'.mp (hdnn e he)
    have hk : e.1 ∈ sm.keys := (hkeys e.1).mp (List.mem_map_of_mem Prod.fst he)
    have hsome : sm.get e.1 ≠ none := fun hnone => (sm.get_eq_none_iff e.1).mp hnone hk
    obtain ⟨q, hq⟩ := Option.ne_none_iff_exists'.mp hsome
    obtain ⟨st, hst⟩ := Option.ne_none_iff_exists'.mp (hsnn (e.1, q) (sm.mem_of_get e.1 q hq))
    simp only at hst
    exact ⟨d, st, hd, by rw [hq, hst]⟩
  obtain ⟨ys, hrun, hpair⟩ := mergeLoop_complete sm dm.entries [] scripts
    (⟨s4, [⟨Op.Refresh, none⟩, ⟨Op.ScriptVrrps, none⟩, ⟨Op.StatsVrrps, none⟩,
      ⟨Op.DataVrrps, none⟩], []⟩ : World σ) hall
  refine ⟨ys, ?_, ?_, hpair, ?_, count_of_forall₂ sm dm.entries ys hpair⟩
  · rw [legacy_reads_ok k s0 s1 s2 s3 s4 scripts sm dm hmode hR hS hT hD]
    simp only [hlen, ne_eq, not_true_eq_false, if_false, Slice.make0]
    rw [hrun]
    simp
  · rw [← hN, GoMap.len]
    exact hpair.length_eq.symm
  · intro key d st hd hst
    have hmem : (key, some d) ∈ dm.entries := dm.mem_of_get key _ hd
    obtain ⟨v, hv, hvd, hvs⟩ := exists_partner _ dm.entries ys hpair (key, some d) hmem
    simp only [Option.some.injEq] at hvd
    rw [hst] at hvs
    simp only [Option.some.injEq] at hvs
    refine ⟨v, ⟨hv, hvd.symm, hvs.symm⟩, ?_⟩
    rintro v' ⟨_, hd', hs'⟩
    cases v
    cases v'
    simp_all

/-- Evaluation of C1 on a source with the data keys VI_1, VI_2 and the stats keys
VI_2, VI_1. -/
theorem bijective_merge_witness :
    ∃ vrrps : List VRRP,
      (GetKeepalivedStats ⟨false, "", stubSynced.collector⟩ 0).outcome =
        .returned (some ⟨some vrrps, some [scriptA]⟩) none ∧
      vrrps.length = 2 ∧
      List.Forall₂ (fun e v => e.2 = some v.Data ∧ statsMap21.get e.1 = some (some v.Stats))
        dataMap12.entries vrrps ∧
      (∀ key d st, dataMap12.get key = some (some d) → statsMap21.get key = some (some st) →
        ∃! v, v ∈ vrrps ∧ v.Data = d ∧ v.Stats = st) ∧
      (∀ v, vrrps.count v =
        (dataMap12.entries.filter
          (fun e => decide (e.2 = some v.Data ∧
            statsMap21.get e.1 = some (some v.Stats)))).length) :=
  bijective_merge ⟨false, "", stubSynced.collector⟩ 0 1 2 3 4 (some [scriptA]) statsMap21
    dataMap12 2 rfl rfl rfl rfl rfl
    (by
      intro key
      simp only [GoMap.keys, dataMap12, statsMap21, GoMap.ofList, List.map_cons, List.map_nil,
        List.mem_cons, List.mem_nil_iff, or_false]
      exact or_comm)
    rfl (by decide) (by decide)

/-- C2 (cardinality guard).  In legacy mode, when `Refresh` and the three reads
succeed and the data map and the stats map differ in their number of entries,
`GetKeepalivedStats` returns a nil snapshot and the error "keepalived.data and
keepalived.stats datas are not synced", after logging it; the entries are not
looked at (the result is the same whatever they hold, nil pointers included),
and no call follows `DataVrrps`. -/
theorem cardinality_guard {σ : Type} (k : KeepalivedCollector σ) (s0 s1 s2 s3 s4 : σ)
    (scripts : Slice VRRPScript) (sm : GoMap (Ptr VRRPStats)) (dm : GoMap (Ptr VRRPData))
    (hmode : k.useJSON = false)
    (hR : k.collector.Refresh s0 = (none, s1))
    (hS : k.collector.ScriptVrrps s1 = ((scripts, none), s2))
    (hT : k.collector.StatsVrrps s2 = ((sm, none), s3))
    (hD : k.collector.DataVrrps s3 = ((dm, none), s4))
    (hlen : dm.len ≠ sm.len) :
    (GetKeepalivedStats k s0).outcome =
        .returned none (some (errorsNew "keepalived.data and keepalived.stats datas are not synced")) ∧
      (GetKeepalivedStats k s0).world.logs =
        [⟨[], "keepalived.data and keepalived.stats datas are not synced"⟩] ∧
      (GetKeepalivedStats k s0).world.state = s4 ∧
      (GetKeepalivedStats k s0).world.trace.map Call.op =
        [Op.Refresh, Op.ScriptVrrps, Op.StatsVrrps, Op.DataVrrps] := by
  rw [legacy_reads_ok k s0 s1 s2 s3 s4 scripts sm dm hmode hR hS hT hD]
  simp [hlen, notSyncedMsg]

/-- Evaluation of C2 on a source with two data entries and one stats entry. -/
theorem cardinality_guard_witness :
    (GetKeepalivedStats ⟨false, "", stubCountMismatch.collector⟩ 0).outcome =
        .returned none (some (errorsNew "keepalived.data and keepalived.stats datas are not synced")) ∧
      (GetKeepalivedStats ⟨false, "", stubCountMismatch.collector⟩ 0).world.logs =
        [⟨[], "keepalived.data and keepalived.stats datas are not synced"⟩] ∧
      (GetKeepalivedStats ⟨false, "", stubCountMismatch.collector⟩ 0).world.state = 4 ∧
      (GetKeepalivedStats ⟨false, "", stubCountMismatch.collector⟩ 0).world.trace.map Call.op =
        [Op.Refresh, Op.ScriptVrrps, Op.StatsVrrps, Op.DataVrrps] :=
  cardinality_guard ⟨false, "", stubCountMismatch.collector⟩ 0 1 2 3 4 (some [scriptA])
    statsMap1 dataMap12 rfl rfl rfl rfl rfl (by decide)

/-- C3 as stated fails: with the data keys VI_1 (a nil pointer), VI_2 and the
stats keys VI_1, VI_3, the four calls succeed, the maps have as many entries and
different key sets, and the loop, visiting VI_1 first, dereferences the nil
pointer: the call panics and returns no error. -/
theorem missing_counterpart_guard_counterexample :
    stubKeyMismatchNil.collector.Refresh 0 = (none, 1) ∧
      stubKeyMismatchNil.collector.ScriptVrrps 1 = ((some [scriptA], none), 2) ∧
      stubKeyMismatchNil.collector.StatsVrrps 2 = ((statsMap13, none), 3) ∧
      stubKeyMismatchNil.collector.DataVrrps 3 = ((dataMapNil1, none), 4) ∧
      dataMapNil1.len = statsMap13.len ∧
      ("VI_2" ∈ dataMapNil1.keys ∧ "VI_2" ∉ statsMap13.keys) ∧
      (GetKeepalivedStats ⟨false, "", stubKeyMismatchNil.collector⟩ 0).outcome = .panicked ∧
      ¬ ∃ e, (GetKeepalivedStats ⟨false, "", stubKeyMismatchNil.collector⟩ 0).outcome =
        .returned none (some e) := by
  refine ⟨rfl, rfl, rfl, rfl, by decide, by decide, by decide, ?_⟩
  rintro ⟨e, he⟩
  have hp : (GetKeepalivedStats ⟨false, "", stubKeyMismatchNil.collector⟩ 0).outcome =
      .panicked := by decide
  rw [hp] at he
  cases he

/-- C3 (missing-counterpart guard), amended.  In legacy mode, when `Refresh` and
the three reads succeed, the data map and the stats map have as many entries but
different key sets (a data key without stats, or a stats key without data), and
no key present in both maps holds a nil pointer in either, `GetKeepalivedStats`
returns a nil snapshot and the error "there is no stats found for instance",
whatever the iteration order; the record it logs names a data key that has no
stats. -/
theorem missing_counterpart_guard {σ : Type} (k : KeepalivedCollector σ) (s0 s1 s2 s3 s4 : σ)
    (scripts : Slice VRRPScript) (sm : GoMap (Ptr VRRPStats)) (dm : GoMap (Ptr VRRPData))
    (hmode : k.useJSON = false)
    (hR : k.collector.Refresh s0 = (none, s1))
    (hS : k.collector.ScriptVrrps s1 = ((scripts, none), s2))
    (hT : k.collector.StatsVrrps s2 = ((sm, none), s3))
    (hD : k.collector.DataVrrps s3 = ((dm, none), s4))
    (hlen : dm.len = sm.len)
    (hdiff : (∃ key, key ∈ dm.keys ∧ key ∉ sm.keys) ∨ (∃ key, key ∈ sm.keys ∧ key ∉ dm.keys))
    (hnn : ∀ key p q, dm.get key = some p → sm.get key = some q → p ≠ none ∧ q ≠ none) :
    (GetKeepalivedStats k s0).outcome =
        .returned none (some (errorsNew "there is no stats found for instance")) ∧
      ∃ key, key ∈ dm.keys ∧ key ∉ sm.keys ∧
        (GetKeepalivedStats k s0).world.logs =
          [⟨[("instance", key)], "There is no stats found for instance"⟩] := by
  have hex : ∃ key, key ∈ dm.keys ∧ key ∉ sm.keys := by
    by_contra hno
    have hsub : ∀ key, key ∈ dm.keys → key ∈ sm.keys := by
      intro key hk
      by_contra hk'
      exact hno ⟨key, hk, hk'⟩
    have hsup := GoMap.keys_subset_antisymm dm sm hlen hsub
    rcases hdiff with ⟨key, h1, h2⟩ | ⟨key, h1, h2⟩
    · exact h2 (hsub key h1)
    · exact h2 (hsup key h1)
  have hmiss : ∃ e ∈ dm.entries, sm.get e.1 = none := by
    obtain ⟨key, h1, h2⟩ := hex
    obtain ⟨e, he, rfl⟩ := List.mem_map.mp h1
    exact ⟨e, he, (sm.get_eq_none_iff e.1).mpr h2⟩
  have hnn' : ∀ e ∈ dm.entries, ∀ q, sm.get e.1 = some q → e.2 ≠ none ∧ q ≠ none :=
    fun e he q hq => hnn e.1 e.2 q (dm.get_of_mem e.1 e.2 he) hq
  obtain ⟨key, ⟨hk1, hk2⟩, hrun⟩ := mergeLoop_missing sm dm.entries ⟨Slice.make0, scripts⟩
    (⟨s4, [⟨Op.Refresh, none⟩, ⟨Op.ScriptVrrps, none⟩, ⟨Op.StatsVrrps, none⟩,
      ⟨Op.DataVrrps, none⟩], []⟩ : World σ) hmiss hnn'
  rw [legacy_reads_ok k s0 s1 s2 s3 s4 scripts sm dm hmode hR hS hT hD]
  simp only [hlen, ne_eq, not_true_eq_false, if_false]
  rw [hrun]
  refine ⟨by simp [noStatsMsg], key, hk1, (sm.get_eq_none_iff key).mp hk2, ?_⟩
  simp [World.logError]

/-- Evaluation of the amended C3 on a source with the data keys VI_1, VI_2 and
the stats keys VI_1, VI_3, all pointers non-nil. -/
theorem missing_counterpart_guard_witness :
    (GetKeepalivedStats ⟨false, "", stubKeyMismatch.collector⟩ 0).outcome =
        .returned none (some (errorsNew "there is no stats found for instance")) ∧
      ∃ key, key ∈ dataMap12.keys ∧ key ∉ statsMap13.keys ∧
        (GetKeepalivedStats ⟨false, "", stubKeyMismatch.collector⟩ 0).world.logs =
          [⟨[("instance", key)], "There is no stats found for instance"⟩] :=
  missing_counterpart_guard ⟨false, "", stubKeyMismatch.collector⟩ 0 1 2 3 4 (some [scriptA])
    statsMap13 dataMap12 rfl rfl rfl rfl rfl (by decide)
    (Or.inl ⟨"VI_2", by decide, by decide⟩)
    (by
      intro key p q hp hq
      have h1 := dataMap12.mem_of_get key p hp
      have h2 := statsMap13.mem_of_get key q hq
      simp only [dataMap12, statsMap13, GoMap.ofList, List.mem_cons, Prod.mk.injEq,
        List.mem_nil_iff, or_false] at h1 h2
      rcases h1 with ⟨_, rfl⟩ | ⟨_, rfl⟩ <;> rcases h2 with ⟨_, rfl⟩ | ⟨_, rfl⟩ <;> simp)

/-! ## Fast mode, refresh failure, nil and empty sequences -/

/-- C4 (fast-mode passthrough).  In fast mode, when `Refresh` and `JSONVrrps`
succeed, `GetKeepalivedStats` returns a nil error and a snapshot whose `VRRPs`
is the very slice `JSONVrrps` returned and whose `Scripts` is a non-nil slice
with no element. -/
theorem fast_mode_passthrough {σ : Type} (k : KeepalivedCollector σ) (s0 s1 s2 : σ)
    (vrrps : Slice VRRP)
    (hmode : k.useJSON = true)
    (hR : k.collector.Refresh s0 = (none, s1))
    (hJ : k.collector.JSONVrrps s1 = ((vrrps, none), s2)) :
    ∃ snap : KeepalivedStats,
      (GetKeepalivedStats k s0).outcome = .returned (some snap) none ∧
      snap.VRRPs = vrrps ∧ snap.Scripts = some [] ∧
      snap.Scripts.isNil = false ∧ snap.Scripts.len = 0 := by
  have hR' : (refreshAnswer k s0).1 = none := by simp [refreshAnswer, hR]
  have hJ' : (jsonAnswer k s0) = ((vrrps, none), s2) := by simp [jsonAnswer, refreshAnswer, hR, hJ]
  refine ⟨⟨vrrps, some []⟩, ?_, rfl, rfl, rfl, rfl⟩
  rw [run_json_ok k s0 hmode hR' (by rw [hJ'])]
  simp [hJ', Slice.make0]

/-- Evaluation of C4 on a source whose `JSONVrrps` returns one pair. -/
theorem fast_mode_passthrough_witness :
    ∃ snap : KeepalivedStats,
      (GetKeepalivedStats ⟨true, "", stubJSON.collector⟩ 0).outcome =
        .returned (some snap) none ∧
      snap.VRRPs = some [⟨dataOf "VI_1" 51, statsOf 10⟩] ∧ snap.Scripts = some [] ∧
      snap.Scripts.isNil = false ∧ snap.Scripts.len = 0 :=
  fast_mode_passthrough ⟨true, "", stubJSON.collector⟩ 0 1 2
    (some [⟨dataOf "VI_1" 51, statsOf 10⟩]) rfl rfl rfl

/-- C5 (refresh short-circuit).  In either mode, when `Refresh` returns an error,
`GetKeepalivedStats` returns a nil snapshot and that error; `Refresh` is the
only call made, so `ScriptVrrps`, `StatsVrrps`, `DataVrrps` and `JSONVrrps` are
each called zero times. -/
theorem refresh_short_circuit {σ : Type} (k : KeepalivedCollector σ) (s0 s1 : σ) (e : GoError)
    (hR : k.collector.Refresh s0 = (some e, s1)) :
    (GetKeepalivedStats k s0).outcome = .returned none (some e) ∧
      (GetKeepalivedStats k s0).world.trace = [⟨Op.Refresh, some e⟩] ∧
      (∀ op ∈ [Op.ScriptVrrps, Op.StatsVrrps, Op.DataVrrps, Op.JSONVrrps],
        ((GetKeepalivedStats k s0).world.trace.map Call.op).count op = 0) ∧
      (GetKeepalivedStats k s0).world.state = s1 := by
  have hR' : (refreshAnswer k s0).1 = some e := by simp [refreshAnswer, hR]
  rw [run_refresh_err k s0 e hR']
  simp [refreshAnswer, hR]

/-- Evaluation of C5 on a legacy-mode source whose `Refresh` fails. -/
theorem refresh_short_circuit_witness :
    (GetKeepalivedStats ⟨false, "", stubRefreshFails.collector⟩ 0).outcome =
        .returned none (some errBoom) ∧
      (GetKeepalivedStats ⟨false, "", stubRefreshFails.collector⟩ 0).world.trace =
        [⟨Op.Refresh, some errBoom⟩] ∧
      (∀ op ∈ [Op.ScriptVrrps, Op.StatsVrrps, Op.DataVrrps, Op.JSONVrrps],
        ((GetKeepalivedStats ⟨false, "", stubRefreshFails.collector⟩ 0).world.trace.map
          Call.op).count op = 0) ∧
      (GetKeepalivedStats ⟨false, "", stubRefreshFails.collector⟩ 0).world.state = 1 :=
  refresh_short_circuit ⟨false, "", stubRefreshFails.collector⟩ 0 1 errBoom rfl

/-- C6 as stated fails: a fast-mode cycle whose `JSONVrrps` returns a nil slice
and a nil error succeeds with a nil `VRRPs`, and a legacy-mode cycle whose
`ScriptVrrps` returns a nil slice and a nil error succeeds with a nil
`Scripts`. -/
theorem sequences_present_counterexample :
    (stubSynced.collector.JSONVrrps 1 = ((none, none), 2) ∧
      (GetKeepalivedStats ⟨true, "", stubSynced.collector⟩ 0).outcome =
        .returned (some ⟨none, some []⟩) none) ∧
    (stubNilScripts.collector.ScriptVrrps 1 = ((none, none), 2) ∧
      (GetKeepalivedStats ⟨false, "", stubNilScripts.collector⟩ 0).outcome =
        .returned (some ⟨some [⟨dataOf "VI_1" 51, statsOf 10⟩, ⟨dataOf "VI_2" 52, statsOf 20⟩],
          none⟩) none) :=
  ⟨⟨rfl, by decide⟩, rfl, by decide⟩

/-- C6 (empty-not-absent sequences), amended.  For every cycle in which
`GetKeepalivedStats` succeeds: in fast mode `Scripts` is a non-nil slice with no
element and `VRRPs` is the very slice `JSONVrrps` returned, nil when that one is
nil; in legacy mode `VRRPs` is a non-nil slice with as many elements as the data
map has entries (empty, not nil, when there is none) and `Scripts` is the very
slice `ScriptVrrps` returned, nil when that one is nil. -/
theorem sequences_present {σ : Type} (k : KeepalivedCollector σ) (s : σ)
    (snap : KeepalivedStats)
    (h : (GetKeepalivedStats k s).outcome = .returned (some snap) none) :
    (k.useJSON = true →
      snap.Scripts = some [] ∧ snap.VRRPs = (jsonAnswer k s).1.1) ∧
    (k.useJSON = false →
      snap.VRRPs.isNil = false ∧ snap.VRRPs.len = (dataAnswer k s).1.1.len ∧
      snap.Scripts = (scriptAnswer k s).1.1) := by
  rcases hR : (refreshAnswer k s).1 with _ | e
  swap
  · rw [run_refresh_err k s e hR] at h
    simp at h
  constructor
  · intro hmode
    rcases hJ : (jsonAnswer k s).1.2 with _ | e
    · rw [run_json_ok k s hmode hR hJ] at h
      simp only [Outcome.returned.injEq, Option.some.injEq, and_true] at h
      simp [← h, Slice.make0]
    · rw [run_json_err k s e hmode hR hJ] at h
      simp at h
  · intro hmode
    rcases hS : (scriptAnswer k s).1.2 with _ | e
    swap
    · rw [run_script_err k s e hmode hR hS] at h
      simp at h
    rcases hT : (statsAnswer k s).1.2 with _ | e
    swap
    · rw [run_stats_err k s e hmode hR hS hT] at h
      simp at h
    rcases hD : (dataAnswer k s).1.2 with _ | e
    swap
    · rw [run_data_err k s e hmode hR hS hT hD] at h
      simp at h
    rw [run_legacy_ok k s hmode hR hS hT hD] at h
    by_cases hlen : (dataAnswer k s).1.1.len ≠ (statsAnswer k s).1.1.len
    · simp [hlen] at h
    · simp only [hlen, if_false, Slice.make0] at h
      obtain ⟨_, ys, hsnap, hall⟩ := mergeLoop_returned_some _ _ _ _ _ _ _ h
      subst hsnap
      refine ⟨rfl, ?_, rfl⟩
      simp [Slice.len, Slice.elems, GoMap.len, hall.length_eq]

/-- Evaluation of the amended C6 on a legacy-mode source with two instances. -/
theorem sequences_present_witness :
    (legacySynced.useJSON = true →
      snapSynced.Scripts = some [] ∧ snapSynced.VRRPs = (jsonAnswer legacySynced 0).1.1) ∧
    (legacySynced.useJSON = false →
      snapSynced.VRRPs.isNil = false ∧
      snapSynced.VRRPs.len = (dataAnswer legacySynced 0).1.1.len ∧
      snapSynced.Scripts = (scriptAnswer legacySynced 0).1.1) :=
  sequences_present legacySynced 0 snapSynced (by decide)

/-! ## Source errors, partial results and the order of the calls -/

/-- C7 (source errors are propagated unmodified and never retried).  In either
mode, whenever a call made on the data source during a cycle returned an error
`e`, `GetKeepalivedStats` returns a nil snapshot and exactly `e`, and the method
that failed was called exactly once. -/
theorem source_error_propagated {σ : Type} (k : KeepalivedCollector σ) (s : σ) (c : Call)
    (e : GoError)
    (hc : c ∈ (GetKeepalivedStats k s).world.trace) (he : c.err = some e) :
    (GetKeepalivedStats k s).outcome = .returned none (some e) ∧
      ((GetKeepalivedStats k s).world.trace.map Call.op).count c.op = 1 := by
  rcases hR : (refreshAnswer k s).1 with _ | e1
  swap
  · rw [run_refresh_err k s e1 hR] at hc ⊢
    simp only [List.mem_singleton] at hc
    subst hc
    simp only [Option.some.injEq] at he
    subst he
    simp
  rcases hmode : k.useJSON
  · rcases hS : (scriptAnswer k s).1.2 with _ | e2
    swap
    · rw [run_script_err k s e2 hmode hR hS] at hc ⊢
      simp only [List.mem_cons, List.mem_singleton, List.mem_nil_iff, or_false] at hc
      rcases hc with rfl | rfl
      · simp at he
      · simp only [Option.some.injEq] at he
        subst he
        simp
    rcases hT : (statsAnswer k s).1.2 with _ | e3
    swap
    · rw [run_stats_err k s e3 hmode hR hS hT] at hc ⊢
      simp only [List.mem_cons, List.mem_singleton, List.mem_nil_iff, or_false] at hc
      rcases hc with rfl | rfl | rfl
      · simp at he
      · simp at he
      · simp only [Option.some.injEq] at he
        subst he
        simp
    rcases hD : (dataAnswer k s).1.2 with _ | e4
    swap
    · rw [run_data_err k s e4 hmode hR hS hT hD] at hc ⊢
      simp only [List.mem_cons, List.mem_singleton, List.mem_nil_iff, or_false] at hc
      rcases hc with rfl | rfl | rfl | rfl
      · simp at he
      · simp at he
      · simp at he
      · simp only [Option.some.injEq] at he
        subst he
        simp
    exfalso
    rw [run_legacy_ok k s hmode hR hS hT hD] at hc
    by_cases hlen : (dataAnswer k s).1.1.len ≠ (statsAnswer k s).1.1.len
    · rw [if_pos hlen] at hc
      simp only [List.mem_cons, List.mem_singleton, List.mem_nil_iff, or_false] at hc
      rcases hc with rfl | rfl | rfl | rfl <;> simp at he
    · rw [if_neg hlen, (mergeLoop_world _ _ _ _).2] at hc
      simp only [List.mem_cons, List.mem_singleton, List.mem_nil_iff, or_false] at hc
      rcases hc with rfl | rfl | rfl | rfl <;> simp at he
  · rcases hJ : (jsonAnswer k s).1.2 with _ | e2
    · rw [run_json_ok k s hmode hR hJ] at hc
      simp only [List.mem_cons, List.mem_singleton, List.mem_nil_iff, or_false] at hc
      rcases hc with rfl | rfl <;> simp at he
    · rw [run_json_err k s e2 hmode hR hJ] at hc ⊢
      simp only [List.mem_cons, List.mem_singleton, List.mem_nil_iff, or_false] at hc
      rcases hc with rfl | rfl
      · simp at he
      · simp only [Option.some.injEq] at he
        subst he
        simp

/-- Evaluation of C7 on a legacy-mode source whose `StatsVrrps` fails. -/
theorem source_error_propagated_witness :
    (GetKeepalivedStats legacyStatsFails 0).outcome = .returned none (some errBoom) ∧
      ((GetKeepalivedStats legacyStatsFails 0).world.trace.map Call.op).count
        (⟨Op.StatsVrrps, some errBoom⟩ : Call).op = 1 :=
  source_error_propagated legacyStatsFails 0 ⟨Op.StatsVrrps, some errBoom⟩ errBoom
    (by decide) rfl

/-- C8 as stated fails: with the single key VI_1 in both maps and a nil stats
pointer under it, the four calls succeed and the loop dereferences the nil
pointer: the call panics, returning neither a snapshot nor an error. -/
theorem no_partial_result_counterexample :
    legacyNilStats.useJSON = false ∧
      (refreshAnswer legacyNilStats 0).1 = none ∧
      (scriptAnswer legacyNilStats 0).1.2 = none ∧
      ((statsAnswer legacyNilStats 0).1.2 = none ∧
        (statsAnswer legacyNilStats 0).1.1.entries = [("VI_1", none)]) ∧
      ((dataAnswer legacyNilStats 0).1.2 = none ∧
        (dataAnswer legacyNilStats 0).1.1.entries = [("VI_1", some (dataOf "VI_1" 51))]) ∧
      (GetKeepalivedStats legacyNilStats 0).outcome = .panicked ∧
      ¬ ((∃ snap, (GetKeepalivedStats legacyNilStats 0).outcome = .returned (some snap) none) ∨
        (∃ e, (GetKeepalivedStats legacyNilStats 0).outcome = .returned none (some e))) := by
  have hp : (GetKeepalivedStats legacyNilStats 0).outcome = .panicked := by decide
  refine ⟨rfl, rfl, rfl, ⟨rfl, rfl⟩, ⟨rfl, rfl⟩, hp, ?_⟩
  rw [hp]
  rintro (⟨_, h⟩ | ⟨_, h⟩) <;> cases h

/-- C8 (no partial result), amended.  For every behaviour of the data source
and either mode: provided that in legacy mode no key present in both maps holds
a nil pointer in either, `GetKeepalivedStats` returns either a snapshot and a nil
error or a nil snapshot and an error; and, whatever the data source does (nil
pointers included), a returned snapshot comes with a nil error and is complete:
in fast mode its `VRRPs` is the whole slice `JSONVrrps` returned; in legacy mode
its `VRRPs` is paired off with all the entries of the data map, and the stats
map has the same keys as the data map. -/
theorem no_partial_result {σ : Type} (k : KeepalivedCollector σ) (s : σ) :
    ((k.useJSON = false → ∀ key p q, (dataAnswer k s).1.1.get key = some p →
        (statsAnswer k s).1.1.get key = some q → p ≠ none ∧ q ≠ none) →
      ((∃ snap, (GetKeepalivedStats k s).outcome = .returned (some snap) none) ∨
        (∃ e, (GetKeepalivedStats k s).outcome = .returned none (some e)))) ∧
    (∀ snap err, (GetKeepalivedStats k s).outcome = .returned (some snap) err →
      err = none ∧
      (k.useJSON = true → snap.VRRPs = (jsonAnswer k s).1.1) ∧
      (k.useJSON = false →
        List.Forall₂
          (fun e v => e.2 = some v.Data ∧ (statsAnswer k s).1.1.get e.1 = some (some v.Stats))
          (dataAnswer k s).1.1.entries snap.VRRPs.elems ∧
        ∀ key, key ∈ (dataAnswer k s).1.1.keys ↔ key ∈ (statsAnswer k s).1.1.keys)) := by
  rcases hR : (refreshAnswer k s).1 with _ | e1
  swap
  · rw [run_refresh_err k s e1 hR]
    exact ⟨fun _ => Or.inr ⟨e1, rfl⟩, by simp⟩
  rcases hmode : k.useJSON
  · rcases hS : (scriptAnswer k s).1.2 with _ | e2
    swap
    · rw [run_script_err k s e2 hmode hR hS]
      exact ⟨fun _ => Or.inr ⟨e2, rfl⟩, by simp⟩
    rcases hT : (statsAnswer k s).1.2 with _ | e3
    swap
    · rw [run_stats_err k s e3 hmode hR hS hT]
      exact ⟨fun _ => Or.inr ⟨e3, rfl⟩, by simp⟩
    rcases hD : (dataAnswer k s).1.2 with _ | e4
    swap
    · rw [run_data_err k s e4 hmode hR hS hT hD]
      exact ⟨fun _ => Or.inr ⟨e4, rfl⟩, by simp⟩
    rw [run_legacy_ok k s hmode hR hS hT hD]
    by_cases hlen : (dataAnswer k s).1.1.len ≠ (statsAnswer k s).1.1.len
    · rw [if_pos hlen]
      exact ⟨fun _ => Or.inr ⟨_, rfl⟩, by simp⟩
    · rw [if_neg hlen]
      refine ⟨fun hnn => mergeLoop_returns _ _ [] _ _ (fun e he q hq =>
        hnn rfl e.1 e.2 q ((dataAnswer k s).1.1.get_of_mem e.1 e.2 he) hq), ?_⟩
      intro snap err h
      obtain ⟨herr, ys, hsnap, hall⟩ := mergeLoop_returned_some _ _ [] _ _ _ _ h
      subst hsnap
      refine ⟨herr, by simp, fun _ => ⟨by simpa [Slice.elems] using hall, ?_⟩⟩
      have hsub : ∀ key, key ∈ (dataAnswer k s).1.1.keys → key ∈ (statsAnswer k s).1.1.keys := by
        intro key hk
        obtain ⟨e, he, rfl⟩ := List.mem_map.mp hk
        obtain ⟨v, _, _, hv⟩ := exists_partner _ _ _ hall e he
        by_contra hnot
        rw [((statsAnswer k s).1.1.get_eq_none_iff e.1).mpr hnot] at hv
        cases hv
      have hlen' : (dataAnswer k s).1.1.len = (statsAnswer k s).1.1.len := not_not.mp hlen
      exact fun key => ⟨hsub key, GoMap.keys_subset_antisymm _ _ hlen' hsub key⟩
  · rcases hJ : (jsonAnswer k s).1.2 with _ | e2
    · rw [run_json_ok k s hmode hR hJ]
      refine ⟨fun _ => Or.inl ⟨_, rfl⟩, ?_⟩
      intro snap err h
      simp only [Outcome.returned.injEq, Option.some.injEq] at h
      refine ⟨h.2.symm, fun _ => by rw [← h.1], by simp⟩
    · rw [run_json_err k s e2 hmode hR hJ]
      exact ⟨fun _ => Or.inr ⟨e2, rfl⟩, by simp⟩

/-- Evaluation of the amended C8: on a legacy-mode source with two instances and
no nil pointer the call returns one of the two pairs; on the source with a nil
stats pointer under VI_1, where the call panics, the second half still holds. -/
theorem no_partial_result_witness :
    (((∃ snap, (GetKeepalivedStats legacySynced 0).outcome = .returned (some snap) none) ∨
        (∃ e, (GetKeepalivedStats legacySynced 0).outcome = .returned none (some e))) ∧
      (∀ snap err, (GetKeepalivedStats legacySynced 0).outcome = .returned (some snap) err →
        err = none ∧
        (legacySynced.useJSON = true → snap.VRRPs = (jsonAnswer legacySynced 0).1.1) ∧
        (legacySynced.useJSON = false →
          List.Forall₂
            (fun e v => e.2 = some v.Data ∧
              (statsAnswer legacySynced 0).1.1.get e.1 = some (some v.Stats))
            (dataAnswer legacySynced 0).1.1.entries snap.VRRPs.elems ∧
          ∀ key, key ∈ (dataAnswer legacySynced 0).1.1.keys ↔
            key ∈ (statsAnswer legacySynced 0).1.1.keys))) ∧
    (∀ snap err, (GetKeepalivedStats legacyNilStats 0).outcome = .returned (some snap) err →
      err = none ∧
      (legacyNilStats.useJSON = true → snap.VRRPs = (jsonAnswer legacyNilStats 0).1.1) ∧
      (legacyNilStats.useJSON = false →
        List.Forall₂
          (fun e v => e.2 = some v.Data ∧
            (statsAnswer legacyNilStats 0).1.1.get e.1 = some (some v.Stats))
          (dataAnswer legacyNilStats 0).1.1.entries snap.VRRPs.elems ∧
        ∀ key, key ∈ (dataAnswer legacyNilStats 0).1.1.keys ↔
          key ∈ (statsAnswer legacyNilStats 0).1.1.keys)) :=
  ⟨⟨(no_partial_result legacySynced 0).1
      (by
        intro _ key p q hp hq
        have h1 := (dataAnswer legacySynced 0).1.1.mem_of_get key p hp
        have h2 := (statsAnswer legacySynced 0).1.1.mem_of_get key q hq
        have hd : (dataAnswer legacySynced 0).1.1 = dataMap12 := rfl
        have ht : (statsAnswer legacySynced 0).1.1 = statsMap21 := rfl
        rw [hd] at h1
        rw [ht] at h2
        simp only [dataMap12, statsMap21, GoMap.ofList, List.mem_cons, Prod.mk.injEq,
          List.mem_nil_iff, or_false] at h1 h2
        rcases h1 with ⟨_, rfl⟩ | ⟨_, rfl⟩ <;> rcases h2 with ⟨_, rfl⟩ | ⟨_, rfl⟩ <;> simp),
    (no_partial_result legacySynced 0).2⟩,
   (no_partial_result legacyNilStats 0).2⟩

/-- C9 (legacy call order and fail-fast).  In legacy mode the methods called by
one `GetKeepalivedStats` are a prefix of `Refresh`, `ScriptVrrps`, `StatsVrrps`,
`DataVrrps`, each called at most once and `Refresh` always; every call but the
last returned a nil error, and when no call returned an error all four are
made, so the prefix ends right after the first call that fails; all four are
called exactly when the first three succeed; `JSONVrrps` and
`HasVRRPScriptStateSupport` are never called. -/
theorem legacy_call_order {σ : Type} (k : KeepalivedCollector σ) (s : σ)
    (hmode : k.useJSON = false) :
    (GetKeepalivedStats k s).world.trace.map Call.op <+:
        [Op.Refresh, Op.ScriptVrrps, Op.StatsVrrps, Op.DataVrrps] ∧
      ((GetKeepalivedStats k s).world.trace.map Call.op).Nodup ∧
      ((GetKeepalivedStats k s).world.trace.map Call.op).head? = some Op.Refresh ∧
      (∀ c ∈ (GetKeepalivedStats k s).world.trace.dropLast, c.err = none) ∧
      ((∀ c ∈ (GetKeepalivedStats k s).world.trace, c.err = none) →
        (GetKeepalivedStats k s).world.trace.map Call.op =
          [Op.Refresh, Op.ScriptVrrps, Op.StatsVrrps, Op.DataVrrps]) ∧
      ((GetKeepalivedStats k s).world.trace.map Call.op =
          [Op.Refresh, Op.ScriptVrrps, Op.StatsVrrps, Op.DataVrrps] ↔
        (refreshAnswer k s).1 = none ∧ (scriptAnswer k s).1.2 = none ∧
          (statsAnswer k s).1.2 = none) ∧
      Op.JSONVrrps ∉ (GetKeepalivedStats k s).world.trace.map Call.op ∧
      Op.HasVRRPScriptStateSupport ∉ (GetKeepalivedStats k s).world.trace.map Call.op := by
  rcases hR : (refreshAnswer k s).1 with _ | e1
  swap
  · rw [run_refresh_err k s e1 hR]
    simp [List.prefix_iff_eq_take]
  rcases hS : (scriptAnswer k s).1.2 with _ | e2
  swap
  · rw [run_script_err k s e2 hmode hR hS]
    simp [List.prefix_iff_eq_take]
  rcases hT : (statsAnswer k s).1.2 with _ | e3
  swap
  · rw [run_stats_err k s e3 hmode hR hS hT]
    simp [List.prefix_iff_eq_take]
  have hfour : ∀ t : List Call, (∃ oe, t = [⟨Op.Refresh, none⟩, ⟨Op.ScriptVrrps, none⟩,
      ⟨Op.StatsVrrps, none⟩, ⟨Op.DataVrrps, oe⟩]) →
      (t.map Call.op <+: [Op.Refresh, Op.ScriptVrrps, Op.StatsVrrps, Op.DataVrrps] ∧
      (t.map Call.op).Nodup ∧ (t.map Call.op).head? = some Op.Refresh ∧
      (∀ c ∈ t.dropLast, c.err = none) ∧
      ((∀ c ∈ t, c.err = none) →
        t.map Call.op = [Op.Refresh, Op.ScriptVrrps, Op.StatsVrrps, Op.DataVrrps]) ∧
      (t.map Call.op = [Op.Refresh, Op.ScriptVrrps, Op.StatsVrrps, Op.DataVrrps] ↔
        (none : Option GoError) = none ∧ (none : Option GoError) = none ∧
          (none : Option GoError) = none) ∧
      Op.JSONVrrps ∉ t.map Call.op ∧ Op.HasVRRPScriptStateSupport ∉ t.map Call.op) := by
    rintro t ⟨oe, rfl⟩
    simp
  rcases hD : (dataAnswer k s).1.2 with _ | e4
  swap
  · rw [run_data_err k s e4 hmode hR hS hT hD]
    exact hfour _ ⟨_, rfl⟩
  rw [run_legacy_ok k s hmode hR hS hT hD]
  by_cases hlen : (dataAnswer k s).1.1.len ≠ (statsAnswer k s).1.1.len
  · rw [if_pos hlen]
    exact hfour _ ⟨_, rfl⟩
  · rw [if_neg hlen, (mergeLoop_world _ _ _ _).2]
    exact hfour _ ⟨_, rfl⟩

/-- Evaluation of C9 on a legacy-mode source whose `StatsVrrps` fails. -/
theorem legacy_call_order_witness :
    (GetKeepalivedStats legacyStatsFails 0).world.trace.map Call.op <+:
        [Op.Refresh, Op.ScriptVrrps, Op.StatsVrrps, Op.DataVrrps] ∧
      ((GetKeepalivedStats legacyStatsFails 0).world.trace.map Call.op).Nodup ∧
      ((GetKeepalivedStats legacyStatsFails 0).world.trace.map Call.op).head? =
        some Op.Refresh ∧
      (∀ c ∈ (GetKeepalivedStats legacyStatsFails 0).world.trace.dropLast, c.err = none) ∧
      ((∀ c ∈ (GetKeepalivedStats legacyStatsFails 0).world.trace, c.err = none) →
        (GetKeepalivedStats legacyStatsFails 0).world.trace.map Call.op =
          [Op.Refresh, Op.ScriptVrrps, Op.StatsVrrps, Op.DataVrrps]) ∧
      ((GetKeepalivedStats legacyStatsFails 0).world.trace.map Call.op =
          [Op.Refresh, Op.ScriptVrrps, Op.StatsVrrps, Op.DataVrrps] ↔
        (refreshAnswer legacyStatsFails 0).1 = none ∧
          (scriptAnswer legacyStatsFails 0).1.2 = none ∧
          (statsAnswer legacyStatsFails 0).1.2 = none) ∧
      Op.JSONVrrps ∉ (GetKeepalivedStats legacyStatsFails 0).world.trace.map Call.op ∧
      Op.HasVRRPScriptStateSupport ∉
        (GetKeepalivedStats legacyStatsFails 0).world.trace.map Call.op :=
  legacy_call_order legacyStatsFails 0 rfl

/-- C10 (fast-mode call sequence).  In fast mode one `GetKeepalivedStats` calls
`Refresh` then `JSONVrrps` when `Refresh` succeeds and `Refresh` alone when it
fails; `ScriptVrrps`, `StatsVrrps` and `DataVrrps` are never called; nothing is
logged and, when `JSONVrrps` succeeds, the slice it returned is handed back as
it is, whatever it holds: no cardinality or missing-counterpart check is
applied to it. -/
theorem fast_mode_calls {σ : Type} (k : KeepalivedCollector σ) (s : σ)
    (hmode : k.useJSON = true) :
    ((refreshAnswer k s).1 = none →
        (GetKeepalivedStats k s).world.trace.map Call.op = [Op.Refresh, Op.JSONVrrps]) ∧
      ((refreshAnswer k s).1 ≠ none →
        (GetKeepalivedStats k s).world.trace.map Call.op = [Op.Refresh]) ∧
      Op.ScriptVrrps ∉ (GetKeepalivedStats k s).world.trace.map Call.op ∧
      Op.StatsVrrps ∉ (GetKeepalivedStats k s).world.trace.map Call.op ∧
      Op.DataVrrps ∉ (GetKeepalivedStats k s).world.trace.map Call.op ∧
      (GetKeepalivedStats k s).world.logs = [] ∧
      ((refreshAnswer k s).1 = none → (jsonAnswer k s).1.2 = none →
        (GetKeepalivedStats k s).outcome =
          .returned (some ⟨(jsonAnswer k s).1.1, some []⟩) none) := by
  rcases hR : (refreshAnswer k s).1 with _ | e1
  swap
  · rw [run_refresh_err k s e1 hR]
    simp
  rcases hJ : (jsonAnswer k s).1.2 with _ | e2
  · rw [run_json_ok k s hmode hR hJ]
    simp [Slice.make0]
  · rw [run_json_err k s e2 hmode hR hJ]
    simp

/-- Evaluation of C10 on a fast-mode source whose `JSONVrrps` returns one pair. -/
theorem fast_mode_calls_witness :
    ((refreshAnswer fastJSON 0).1 = none →
        (GetKeepalivedStats fastJSON 0).world.trace.map Call.op = [Op.Refresh, Op.JSONVrrps]) ∧
      ((refreshAnswer fastJSON 0).1 ≠ none →
        (GetKeepalivedStats fastJSON 0).world.trace.map Call.op = [Op.Refresh]) ∧
      Op.ScriptVrrps ∉ (GetKeepalivedStats fastJSON 0).world.trace.map Call.op ∧
      Op.StatsVrrps ∉ (GetKeepalivedStats fastJSON 0).world.trace.map Call.op ∧
      Op.DataVrrps ∉ (GetKeepalivedStats fastJSON 0).world.trace.map Call.op ∧
      (GetKeepalivedStats fastJSON 0).world.logs = [] ∧
      ((refreshAnswer fastJSON 0).1 = none → (jsonAnswer fastJSON 0).1.2 = none →
        (GetKeepalivedStats fastJSON 0).outcome =
          .returned (some ⟨(jsonAnswer fastJSON 0).1.1, some []⟩) none) :=
  fast_mode_calls fastJSON 0 rfl

/-! ## Legacy-mode success: scripts, iteration order, nil entries -/

/-- A legacy-mode call that returns a snapshot made its four calls with success,
found as many data entries as stats entries, kept the slice of `ScriptVrrps` as
`Scripts` and built one pair per data entry, in iteration order. -/
theorem legacy_success {σ : Type} (k : KeepalivedCollector σ) (s : σ)
    (snap : KeepalivedStats) (err : Option GoError)
    (hmode : k.useJSON = false)
    (h : (GetKeepalivedStats k s).outcome = .returned (some snap) err) :
    err = none ∧ (refreshAnswer k s).1 = none ∧ (scriptAnswer k s).1.2 = none ∧
      (statsAnswer k s).1.2 = none ∧ (dataAnswer k s).1.2 = none ∧
      (dataAnswer k s).1.1.len = (statsAnswer k s).1.1.len ∧
      ∃ ys : List VRRP, snap = ⟨some ys, (scriptAnswer k s).1.1⟩ ∧
        List.Forall₂
          (fun e v => e.2 = some v.Data ∧ (statsAnswer k s).1.1.get e.1 = some (some v.Stats))
          (dataAnswer k s).1.1.entries ys := by
  rcases hR : (refreshAnswer k s).1 with _ | e1
  swap
  · rw [run_refresh_err k s e1 hR] at h
    simp at h
  rcases hS : (scriptAnswer k s).1.2 with _ | e2
  swap
  · rw [run_script_err k s e2 hmode hR hS] at h
    simp at h
  rcases hT : (statsAnswer k s).1.2 with _ | e3
  swap
  · rw [run_stats_err k s e3 hmode hR hS hT] at h
    simp at h
  rcases hD : (dataAnswer k s).1.2 with _ | e4
  swap
  · rw [run_data_err k s e4 hmode hR hS hT hD] at h
    simp at h
  rw [run_legacy_ok k s hmode hR hS hT hD] at h
  by_cases hlen : (dataAnswer k s).1.1.len ≠ (statsAnswer k s).1.1.len
  · rw [if_pos hlen] at h
    simp at h
  · rw [if_neg hlen] at h
    obtain ⟨herr, ys, hsnap, hall⟩ := mergeLoop_returned_some _ _ [] _ _ _ _ h
    exact ⟨herr, rfl, rfl, rfl, rfl, not_not.mp hlen, ys, by simpa using hsnap, hall⟩

/-- C11 (scripts are attached unchanged in legacy mode).  For every legacy-mode
cycle that succeeds, whatever the data map and the stats map hold, the `Scripts`
of the returned snapshot is the very slice that `ScriptVrrps` returned in that
cycle: same elements, same order, nil when that slice is nil. -/
theorem scripts_attached {σ : Type} (k : KeepalivedCollector σ) (s : σ)
    (snap : KeepalivedStats)
    (hmode : k.useJSON = false)
    (h : (GetKeepalivedStats k s).outcome = .returned (some snap) none) :
    snap.Scripts = (scriptAnswer k s).1.1 ∧
      snap.Scripts.elems = (scriptAnswer k s).1.1.elems ∧
      Op.ScriptVrrps ∈ (GetKeepalivedStats k s).world.trace.map Call.op := by
  obtain ⟨_, hR, hS, hT, hD, _, ys, hsnap, _⟩ := legacy_success k s snap none hmode h
  subst hsnap
  refine ⟨rfl, rfl, ?_⟩
  rw [run_legacy_ok k s hmode hR hS hT hD]
  by_cases hlen : (dataAnswer k s).1.1.len ≠ (statsAnswer k s).1.1.len
  · rw [if_pos hlen]
    simp
  · rw [if_neg hlen, (mergeLoop_world _ _ _ _).2]
    simp

/-- Evaluation of C11 on a legacy-mode source with one script and two instances. -/
theorem scripts_attached_witness :
    snapSynced.Scripts = (scriptAnswer legacySynced 0).1.1 ∧
      snapSynced.Scripts.elems = (scriptAnswer legacySynced 0).1.1.elems ∧
      Op.ScriptVrrps ∈ (GetKeepalivedStats legacySynced 0).world.trace.map Call.op :=
  scripts_attached legacySynced 0 snapSynced rfl (by decide)

/-! ## The health-check probe -/

/-- C12 (probe result).  For every vip, `checkScript` returns true exactly when
`cmd.Run` returns a nil error, that is exactly when the shell command ran and
exited with status zero; a non-zero exit status and any other fault (the command
could not be started, its output could not be copied) give false, with one
record logged.  The result is a boolean in every case: the function returns no
error and has no failing branch. -/
theorem probe_result {σ : Type} (k : KeepalivedCollector σ) (sys : Sys) (vip : String)
    (logs : List LogEntry) :
    ((checkScript k sys vip logs).1 = true ↔
        (cmdRun (sys "/bin/sh" ["-c", k.scriptPath ++ " " ++ vip])).err = none) ∧
      ((checkScript k sys vip logs).1 = true ↔
        ∃ out err, sys "/bin/sh" ["-c", k.scriptPath ++ " " ++ vip] = .exited 0 out err) ∧
      (∀ n out err, sys "/bin/sh" ["-c", k.scriptPath ++ " " ++ vip] = .exited (n + 1) out err →
        checkScript k sys vip logs =
          (false, logs ++ [⟨[("VIP", vip), ("stdout", out), ("stderr", err),
            ("error", "exit status " ++ toString (n + 1))], "Check script failed"⟩])) ∧
      (∀ e out err, sys "/bin/sh" ["-c", k.scriptPath ++ " " ++ vip] = .fault e out err →
        checkScript k sys vip logs =
          (false, logs ++ [⟨[("VIP", vip), ("stdout", out), ("stderr", err),
            ("error", e.msg)], "Check script failed"⟩])) ∧
      ((checkScript k sys vip logs).1 = true → (checkScript k sys vip logs).2 = logs) := by
  rcases h : sys "/bin/sh" ["-c", k.scriptPath ++ " " ++ vip] with ⟨_ | n, out, err⟩ | ⟨e, out, err⟩ <;>
    simp [checkScript, probeLine, cmdRun, h]

/-- A plain character is not a blank. -/
theorem not_blank_of_plain (c : Char) (h : isPlain c = true) : isBlank c = false := by
  simp only [isBlank, Bool.or_eq_false_iff, decide_eq_false_iff_not]
  refine ⟨?_, ?_⟩ <;> rintro rfl <;> revert h <;> decide

/-- Two plain words separated by one space, the first with a slash, are the
program to run and its only argument. -/
theorem shCommand_two_words (a b : String) (ha : a.toList.contains '/' = true)
    (hap : ∀ c ∈ a.toList, isPlain c = true)
    (hb : b ≠ "") (hbp : ∀ c ∈ b.toList, isPlain c = true) :
    shCommand (a ++ " " ++ b) = some (a, [b]) := by
  have hl : (a ++ " " ++ b).toList = a.toList ++ ' ' :: b.toList := by
    simp [String.toList]
  have hall : (a ++ " " ++ b).toList.all (fun c => isPlain c || isBlank c) = true := by
    rw [hl, List.all_eq_true]
    intro c hc
    rcases List.mem_append.mp hc with h1 | h1
    · simp [hap c h1]
    · rcases List.mem_cons.mp h1 with h2 | h2
      · subst h2
        decide
      · simp [hbp c h2]
  have hsplit : (a ++ " " ++ b).toList.splitOnP isBlank = [a.toList, b.toList] := by
    rw [hl, List.splitOnP_first isBlank a.toList
        (fun c hc => by simp [not_blank_of_plain c (hap c hc)]) ' ' (by decide) b.toList,
      List.splitOnP_eq_single isBlank b.toList
        (fun c hc => by simp [not_blank_of_plain c (hbp c hc)])]
  have hmk : ∀ t : String, String.mk t.toList = t := fun t => by cases t; rfl
  have hne : ∀ t : String, t ≠ "" → t.toList.isEmpty = false := by
    intro t ht
    rcases h : t.toList with _ | ⟨c, cs⟩
    · exact absurd (by rw [← hmk t, h]) ht
    · rfl
  have hae : a.toList.isEmpty = false := by
    rcases h : a.toList with _ | ⟨c, cs⟩
    · rw [h] at ha
      cases ha
    · rfl
  have hfil : [a.toList, b.toList].filter (fun w => !w.isEmpty) = [a.toList, b.toList] := by
    simp only [List.filter, hae, hne b hb, Bool.not_false]
  unfold shCommand shWords
  rw [if_pos hall, hsplit, hfil]
  simp only [List.map_cons, List.map_nil, hmk, ha, if_true]

/-- C14 as stated fails: for the vip "10.0.0.1 10.0.0.2", which contains a space,
the command line handed to `sh -c` is the script path, a space and the vip; the
shell splits it into three words, so the script is run with two arguments, not
with the vip as its single argument. -/
theorem probe_command_form_counterexample :
    probeLine probeAgg "10.0.0.1 10.0.0.2" = "/etc/keepalived/check.sh 10.0.0.1 10.0.0.2" ∧
      shCommand (probeLine probeAgg "10.0.0.1 10.0.0.2") =
        some ("/etc/keepalived/check.sh", ["10.0.0.1", "10.0.0.2"]) ∧
      shCommand (probeLine probeAgg "10.0.0.1 10.0.0.2") ≠
        some (probeAgg.scriptPath, ["10.0.0.1 10.0.0.2"]) := by
  refine ⟨by decide, by decide, by decide⟩

/-- C14 (probe command form), amended.  For every script path that is a pathname
(it contains a slash) and every non-empty vip, both made of plain characters
only (letters, digits and `. / _ - : , + @`), `checkScript` runs `/bin/sh -c` on
the script path, a space and the vip, and the shell runs the program at the
script path with exactly one argument, equal to the vip.  The result of
`checkScript` depends on the operating system through that one command only. -/
theorem probe_command_form {σ : Type} (k : KeepalivedCollector σ) (vip : String)
    (hs : k.scriptPath.toList.contains '/' = true)
    (hsp : ∀ c ∈ k.scriptPath.toList, isPlain c = true)
    (hv : vip ≠ "") (hvp : ∀ c ∈ vip.toList, isPlain c = true) :
    probeLine k vip = k.scriptPath ++ " " ++ vip ∧
      shCommand (probeLine k vip) = some (k.scriptPath, [vip]) ∧
      (∀ (sys sys' : Sys) (logs : List LogEntry),
        sys "/bin/sh" ["-c", probeLine k vip] = sys' "/bin/sh" ["-c", probeLine k vip] →
        checkScript k sys vip logs = checkScript k sys' vip logs) := by
  refine ⟨rfl, shCommand_two_words k.scriptPath vip hs hsp hv hvp, ?_⟩
  intro sys sys' logs h
  simp only [checkScript, h]

/-- Evaluation of the amended C14 on the vip "10.0.0.1". -/
theorem probe_command_form_witness :
    probeLine probeAgg "10.0.0.1" = probeAgg.scriptPath ++ " " ++ "10.0.0.1" ∧
      shCommand (probeLine probeAgg "10.0.0.1") = some (probeAgg.scriptPath, ["10.0.0.1"]) ∧
      (∀ (sys sys' : Sys) (logs : List LogEntry),
        sys "/bin/sh" ["-c", probeLine probeAgg "10.0.0.1"] =
          sys' "/bin/sh" ["-c", probeLine probeAgg "10.0.0.1"] →
        checkScript probeAgg sys "10.0.0.1" logs = checkScript probeAgg sys' "10.0.0.1" logs) :=
  probe_command_form probeAgg "10.0.0.1" (by decide) (by decide) (by decide) (by decide)

/-! ## The mutex, nil entries, the entry point -/

/-- C13 (serialized snapshot cycles) does not hold of the code: whatever the data
source, the mode and the state, `GetKeepalivedStats` never calls `Lock` nor
`Unlock` on the mutex embedded in the aggregator; the first thing it does is to
call `Refresh`. -/
theorem lock_never_taken {σ : Type} (k : KeepalivedCollector σ) (s : σ) :
    Op.Lock ∉ (GetKeepalivedStats k s).world.trace.map Call.op ∧
      Op.Unlock ∉ (GetKeepalivedStats k s).world.trace.map Call.op ∧
      ((GetKeepalivedStats k s).world.trace.map Call.op).head? = some Op.Refresh := by
  rcases hR : (refreshAnswer k s).1 with _ | e1
  swap
  · rw [run_refresh_err k s e1 hR]
    simp
  rcases hmode : k.useJSON
  · rcases hS : (scriptAnswer k s).1.2 with _ | e2
    swap
    · rw [run_script_err k s e2 hmode hR hS]
      simp
    rcases hT : (statsAnswer k s).1.2 with _ | e3
    swap
    · rw [run_stats_err k s e3 hmode hR hS hT]
      simp
    rcases hD : (dataAnswer k s).1.2 with _ | e4
    swap
    · rw [run_data_err k s e4 hmode hR hS hT hD]
      simp
    rw [run_legacy_ok k s hmode hR hS hT hD]
    by_cases hlen : (dataAnswer k s).1.1.len ≠ (statsAnswer k s).1.1.len
    · rw [if_pos hlen]
      simp
    · rw [if_neg hlen, (mergeLoop_world _ _ _ _).2]
      simp
  · rcases hJ : (jsonAnswer k s).1.2 with _ | e2
    · rw [run_json_ok k s hmode hR hJ]
      simp
    · rw [run_json_err k s e2 hmode hR hJ]
      simp

/-- C16 (nil-entry safety).  In legacy mode, when the four calls succeed and
every pointer stored in the data map and in the stats map is non-nil, the loop
never dereferences a nil pointer: the call does not panic.  Nil maps count as
empty maps: with a nil (or empty) data map and a nil (or empty) stats map the
call returns a nil error and a snapshot with zero `VRRPs`. -/
theorem nil_entry_safety {σ : Type} (k : KeepalivedCollector σ) (s0 s1 s2 s3 s4 : σ)
    (scripts : Slice VRRPScript) (sm : GoMap (Ptr VRRPStats)) (dm : GoMap (Ptr VRRPData))
    (hmode : k.useJSON = false)
    (hR : k.collector.Refresh s0 = (none, s1))
    (hS : k.collector.ScriptVrrps s1 = ((scripts, none), s2))
    (hT : k.collector.StatsVrrps s2 = ((sm, none), s3))
    (hD : k.collector.DataVrrps s3 = ((dm, none), s4))
    (hdnn : ∀ e ∈ dm.entries, e.2 ≠ none)
    (hsnn : ∀ e ∈ sm.entries, e.2 ≠ none) :
    (GetKeepalivedStats k s0).outcome ≠ .panicked ∧
      (dm.isNil = true → sm.isNil = true →
        (GetKeepalivedStats k s0).outcome = .returned (some ⟨some [], scripts⟩) none) ∧
      (dm.len = 0 → sm.len = 0 →
        (GetKeepalivedStats k s0).outcome = .returned (some ⟨some [], scripts⟩) none) := by
  have hrun := legacy_reads_ok k s0 s1 s2 s3 s4 scripts sm dm hmode hR hS hT hD
  have hempty : dm.len = 0 → sm.len = 0 →
      (GetKeepalivedStats k s0).outcome = .returned (some ⟨some [], scripts⟩) none := by
    intro h1 h2
    have he : dm.entries = [] := List.length_eq_zero.mp h1
    rw [hrun, h1, h2, he]
    simp [mergeLoop, Slice.make0]
  refine ⟨?_, ?_, hempty⟩
  · rw [hrun]
    by_cases hlen : dm.len ≠ sm.len
    · rw [if_pos hlen]
      simp
    · rw [if_neg hlen]
      have hnn : ∀ e ∈ dm.entries, ∀ q, sm.get e.1 = some q → e.2 ≠ none ∧ q ≠ none :=
        fun e he q hq => ⟨hdnn e he, hsnn (e.1, q) (sm.mem_of_get e.1 q hq)⟩
      rcases mergeLoop_returns sm dm.entries [] scripts
        (⟨s4, [⟨Op.Refresh, none⟩, ⟨Op.ScriptVrrps, none⟩, ⟨Op.StatsVrrps, none⟩,
          ⟨Op.DataVrrps, none⟩], []⟩ : World σ) hnn with ⟨snap, h⟩ | ⟨e, h⟩
      · simp only [Slice.make0]
        rw [h]
        simp
      · simp only [Slice.make0]
        rw [h]
        simp
  · intro h1 h2
    apply hempty
    · simp [GoMap.len, dm.nil_empty h1]
    · simp [GoMap.len, sm.nil_empty h2]

/-- Evaluation of C16 on a legacy-mode source whose two maps are nil. -/
theorem nil_entry_safety_witness :
    (GetKeepalivedStats legacyNilMaps 0).outcome ≠ .panicked ∧
      ((GoMap.nil : GoMap (Ptr VRRPData)).isNil = true →
        (GoMap.nil : GoMap (Ptr VRRPStats)).isNil = true →
        (GetKeepalivedStats legacyNilMaps 0).outcome =
          .returned (some ⟨some [], some [scriptA]⟩) none) ∧
      ((GoMap.nil : GoMap (Ptr VRRPData)).len = 0 →
        (GoMap.nil : GoMap (Ptr VRRPStats)).len = 0 →
        (GetKeepalivedStats legacyNilMaps 0).outcome =
          .returned (some ⟨some [], some [scriptA]⟩) none) :=
  nil_entry_safety legacyNilMaps 0 1 2 3 4 (some [scriptA]) GoMap.nil GoMap.nil rfl rfl rfl rfl
    rfl (by simp [GoMap.nil]) (by simp [GoMap.nil])

/-- C17 (the entry point is fast-mode only).  For every pid and every host data
source, `GetKeepalivedState` builds the aggregator with `useJSON = true` and an
empty script path and returns exactly what `GetKeepalivedStats` returns on it:
the same snapshot with a nil error, or a nil snapshot with the same error.  So a
snapshot it returns has a non-nil empty `Scripts`, the legacy reads are never
called, nothing is logged and the call cannot panic. -/
theorem entry_point_fast_mode {σ : Type}
    (host : Bool → String → Collector σ × σ) (pid : String) :
    (NewKeepalivedCollector true "" (host true pid).1).useJSON = true ∧
      GetKeepalivedState host pid =
        GetKeepalivedStats (NewKeepalivedCollector true "" (host true pid).1) (host true pid).2 ∧
      (∀ snap err, (GetKeepalivedState host pid).outcome = .returned (some snap) err →
        err = none ∧ snap.Scripts = some [] ∧
        snap.VRRPs =
          (jsonAnswer (NewKeepalivedCollector true "" (host true pid).1) (host true pid).2).1.1) ∧
      (∀ op ∈ [Op.ScriptVrrps, Op.StatsVrrps, Op.DataVrrps],
        op ∉ (GetKeepalivedState host pid).world.trace.map Call.op) ∧
      (GetKeepalivedState host pid).world.logs = [] ∧
      (GetKeepalivedState host pid).outcome ≠ .panicked := by
  have hmode : (NewKeepalivedCollector true "" (host true pid).1).useJSON = true := rfl
  refine ⟨rfl, ?_⟩
  simp only [GetKeepalivedState]
  rcases hR : (refreshAnswer (NewKeepalivedCollector true "" (host true pid).1)
      (host true pid).2).1 with _ | e1
  swap
  · rw [run_refresh_err _ _ e1 hR]
    simp
  rcases hJ : (jsonAnswer (NewKeepalivedCollector true "" (host true pid).1)
      (host true pid).2).1.2 with _ | e2
  · rw [run_json_ok _ _ hmode hR hJ]
    refine ⟨rfl, ?_, by simp, rfl, by simp⟩
    intro snap err h
    simp only [Outcome.returned.injEq, Option.some.injEq] at h
    exact ⟨h.2.symm, by rw [← h.1]; rfl, by rw [← h.1]⟩
  · rw [run_json_err _ _ e2 hmode hR hJ]
    simp

/-- Evaluation of C17 on a host data source whose `JSONVrrps` returns one pair:
the entry point returns that pair and no script. -/
theorem entry_point_fast_mode_witness :
    (GetKeepalivedState hostStub "1234").outcome =
        .returned (some ⟨some [⟨dataOf "VI_1" 51, statsOf 10⟩], some []⟩) none ∧
      (GetKeepalivedState hostStub "1234").world.trace.map Call.op =
        [Op.Refresh, Op.JSONVrrps] := by
  have h := (entry_point_fast_mode hostStub "1234").2.1
  rw [h]
  exact ⟨by decide, by decide⟩

/-! ## Iteration order of the data map -/

/-- C15 as stated fails: two legacy-mode sources give the same answers, with the
same data entries (VI_1, a nil pointer, and VI_2) and the stats keys VI_1 and
VI_3.  Visiting VI_1 first, the loop dereferences the nil pointer and the call
panics; visiting VI_2 first, it returns the error of the missing stats. -/
theorem iteration_order_counterexample :
    dataMapNil1Rev.entries.Perm dataMapNil1.entries ∧
      (scriptAnswer ⟨false, "", stubKeyMismatchNilRev.collector⟩ 0).1 =
        (scriptAnswer ⟨false, "", stubKeyMismatchNil.collector⟩ 0).1 ∧
      (statsAnswer ⟨false, "", stubKeyMismatchNilRev.collector⟩ 0).1.1.entries =
        (statsAnswer ⟨false, "", stubKeyMismatchNil.collector⟩ 0).1.1.entries ∧
      (dataAnswer ⟨false, "", stubKeyMismatchNil.collector⟩ 0).1.1.entries = dataMapNil1.entries ∧
      (dataAnswer ⟨false, "", stubKeyMismatchNilRev.collector⟩ 0).1.1.entries =
        dataMapNil1Rev.entries ∧
      (GetKeepalivedStats ⟨false, "", stubKeyMismatchNil.collector⟩ 0).outcome = .panicked ∧
      (GetKeepalivedStats ⟨false, "", stubKeyMismatchNilRev.collector⟩ 0).outcome =
        .returned none (some (errorsNew "there is no stats found for instance")) :=
  ⟨List.Perm.swap _ _ _, rfl, rfl, rfl, rfl, by decide, by decide⟩

/-- C15 (iteration-order independence), amended.  Take two legacy-mode cycles in
which the data source gives the same answers, the data maps holding the same
entries in any two orders, and suppose that no key present in both the data map
and the stats map holds a nil pointer in either.  Then either both calls return
a nil snapshot and the same error, or both return a nil error and snapshots with
the same `Scripts` and with `VRRPs` that are permutations of one another. -/
theorem iteration_order_independent {σ τ : Type} (k : KeepalivedCollector σ)
    (k' : KeepalivedCollector τ) (s : σ) (s' : τ)
    (hmode : k.useJSON = false) (hmode' : k'.useJSON = false)
    (hR : (refreshAnswer k' s').1 = (refreshAnswer k s).1)
    (hS : (scriptAnswer k' s').1 = (scriptAnswer k s).1)
    (hT : (statsAnswer k' s').1 = (statsAnswer k s).1)
    (hD : (dataAnswer k' s').1.2 = (dataAnswer k s).1.2)
    (hperm : (dataAnswer k' s').1.1.entries.Perm (dataAnswer k s).1.1.entries)
    (hnn : ∀ key p q, (dataAnswer k s).1.1.get key = some p →
      (statsAnswer k s).1.1.get key = some q → p ≠ none ∧ q ≠ none) :
    (∃ e, (GetKeepalivedStats k s).outcome = .returned none (some e) ∧
        (GetKeepalivedStats k' s').outcome = .returned none (some e)) ∨
      (∃ snap snap', (GetKeepalivedStats k s).outcome = .returned (some snap) none ∧
        (GetKeepalivedStats k' s').outcome = .returned (some snap') none ∧
        snap.Scripts = snap'.Scripts ∧
        snap.VRRPs.isNil = snap'.VRRPs.isNil ∧
        snap.VRRPs.elems.Perm snap'.VRRPs.elems) := by
  rcases hR1 : (refreshAnswer k s).1 with _ | e1
  swap
  · rw [run_refresh_err k s e1 hR1, run_refresh_err k' s' e1 (hR.trans hR1)]
    exact Or.inl ⟨e1, rfl, rfl⟩
  have hR2 := hR.trans hR1
  rcases hS1 : (scriptAnswer k s).1.2 with _ | e2
  swap
  · rw [run_script_err k s e2 hmode hR1 hS1,
      run_script_err k' s' e2 hmode' hR2 (by rw [hS]; exact hS1)]
    exact Or.inl ⟨e2, rfl, rfl⟩
  have hS2 : (scriptAnswer k' s').1.2 = none := by rw [hS]; exact hS1
  rcases hT1 : (statsAnswer k s).1.2 with _ | e3
  swap
  · rw [run_stats_err k s e3 hmode hR1 hS1 hT1,
      run_stats_err k' s' e3 hmode' hR2 hS2 (by rw [hT]; exact hT1)]
    exact Or.inl ⟨e3, rfl, rfl⟩
  have hT2 : (statsAnswer k' s').1.2 = none := by rw [hT]; exact hT1
  rcases hD1 : (dataAnswer k s).1.2 with _ | e4
  swap
  · rw [run_data_err k s e4 hmode hR1 hS1 hT1 hD1,
      run_data_err k' s' e4 hmode' hR2 hS2 hT2 (hD.trans hD1)]
    exact Or.inl ⟨e4, rfl, rfl⟩
  have hD2 := hD.trans hD1
  rw [run_legacy_ok k s hmode hR1 hS1 hT1 hD1, run_legacy_ok k' s' hmode' hR2 hS2 hT2 hD2, hS, hT]
  have hlen' : (dataAnswer k' s').1.1.len = (dataAnswer k s).1.1.len := hperm.length_eq
  rw [hlen']
  by_cases hlen : (dataAnswer k s).1.1.len ≠ (statsAnswer k s).1.1.len
  · rw [if_pos hlen, if_pos hlen]
    exact Or.inl ⟨_, rfl, rfl⟩
  rw [if_neg hlen, if_neg hlen]
  have hnn1 : ∀ e ∈ (dataAnswer k s).1.1.entries, ∀ q,
      (statsAnswer k s).1.1.get e.1 = some q → e.2 ≠ none ∧ q ≠ none :=
    fun e he q hq => hnn e.1 e.2 q ((dataAnswer k s).1.1.get_of_mem e.1 e.2 he) hq
  have hnn2 : ∀ e ∈ (dataAnswer k' s').1.1.entries, ∀ q,
      (statsAnswer k s).1.1.get e.1 = some q → e.2 ≠ none ∧ q ≠ none :=
    fun e he q hq => hnn1 e (hperm.subset he) q hq
  by_cases hmiss : ∃ e ∈ (dataAnswer k s).1.1.entries, (statsAnswer k s).1.1.get e.1 = none
  · have hmiss' : ∃ e ∈ (dataAnswer k' s').1.1.entries,
        (statsAnswer k s).1.1.get e.1 = none := by
      obtain ⟨e, he, hnone⟩ := hmiss
      exact ⟨e, hperm.symm.subset he, hnone⟩
    obtain ⟨_, _, hrun⟩ := mergeLoop_missing (statsAnswer k s).1.1 _
      ⟨Slice.make0, (scriptAnswer k s).1.1⟩
      (⟨(dataAnswer k s).2, [⟨Op.Refresh, none⟩, ⟨Op.ScriptVrrps, none⟩,
        ⟨Op.StatsVrrps, none⟩, ⟨Op.DataVrrps, none⟩], []⟩ : World σ) hmiss hnn1
    obtain ⟨_, _, hrun'⟩ := mergeLoop_missing (statsAnswer k s).1.1 _
      ⟨Slice.make0, (scriptAnswer k s).1.1⟩
      (⟨(dataAnswer k' s').2, [⟨Op.Refresh, none⟩, ⟨Op.ScriptVrrps, none⟩,
        ⟨Op.StatsVrrps, none⟩, ⟨Op.DataVrrps, none⟩], []⟩ : World τ) hmiss' hnn2
    rw [hrun, hrun']
    exact Or.inl ⟨_, rfl, rfl⟩
  · have hall : ∀ e ∈ (dataAnswer k s).1.1.entries, ∃ d st,
        e.2 = some d ∧ (statsAnswer k s).1.1.get e.1 = some (some st) := by
      intro e he
      have hsome : (statsAnswer k s).1.1.get e.1 ≠ none := fun hnone => hmiss ⟨e, he, hnone⟩
      obtain ⟨q, hq⟩ := Option.ne_none_iff_exists'.mp hsome
      obtain ⟨hp, hq'⟩ := hnn1 e he q hq
      obtain ⟨d, hd⟩ := Option.ne_none_iff_exists'.mp hp
      obtain ⟨st, hst⟩ := Option.ne_none_iff_exists'.mp hq'
      exact ⟨d, st, hd, by rw [hq, hst]⟩
    obtain ⟨ys, hrun, hpair⟩ := mergeLoop_complete (statsAnswer k s).1.1 _ []
      (scriptAnswer k s).1.1
      (⟨(dataAnswer k s).2, [⟨Op.Refresh, none⟩, ⟨Op.ScriptVrrps, none⟩,
        ⟨Op.StatsVrrps, none⟩, ⟨Op.DataVrrps, none⟩], []⟩ : World σ) hall
    obtain ⟨ys', hrun', hpair'⟩ := mergeLoop_complete (statsAnswer k s).1.1 _ []
      (scriptAnswer k s).1.1
      (⟨(dataAnswer k' s').2, [⟨Op.Refresh, none⟩, ⟨Op.ScriptVrrps, none⟩,
        ⟨Op.StatsVrrps, none⟩, ⟨Op.DataVrrps, none⟩], []⟩ : World τ)
      (fun e he => hall e (hperm.subset he))
    simp only [Slice.make0]
    rw [hrun, hrun']
    refine Or.inr ⟨_, _, rfl, rfl, rfl, rfl, ?_⟩
    simp only [List.nil_append, Slice.elems]
    rw [List.perm_iff_count]
    intro v
    rw [count_of_forall₂ _ _ ys hpair v, count_of_forall₂ _ _ ys' hpair' v]
    exact ((hperm.filter _).length_eq).symm

/-- Evaluation of the amended C15 on the source `stubSynced` and on the same
source with the data map visited in the other order. -/
theorem iteration_order_independent_witness :
    (∃ e, (GetKeepalivedStats legacySynced 0).outcome = .returned none (some e) ∧
        (GetKeepalivedStats legacySyncedRev 0).outcome = .returned none (some e)) ∨
      (∃ snap snap', (GetKeepalivedStats legacySynced 0).outcome = .returned (some snap) none ∧
        (GetKeepalivedStats legacySyncedRev 0).outcome = .returned (some snap') none ∧
        snap.Scripts = snap'.Scripts ∧
        snap.VRRPs.isNil = snap'.VRRPs.isNil ∧
        snap.VRRPs.elems.Perm snap'.VRRPs.elems) :=
  iteration_order_independent legacySynced legacySyncedRev 0 0 rfl rfl rfl rfl rfl rfl
    (List.Perm.swap _ _ _)
    (by
      intro key p q hp hq
      have h1 := (dataAnswer legacySynced 0).1.1.mem_of_get key p hp
      have h2 := (statsAnswer legacySynced 0).1.1.mem_of_get key q hq
      have hd : (dataAnswer legacySynced 0).1.1 = dataMap12 := rfl
      have ht : (statsAnswer legacySynced 0).1.1 = statsMap21 := rfl
      rw [hd] at h1
      rw [ht] at h2
      simp only [dataMap12, statsMap21, GoMap.ofList, List.mem_cons, Prod.mk.injEq,
        List.mem_nil_iff, or_false] at h1 h2
      rcases h1 with ⟨_, rfl⟩ | ⟨_, rfl⟩ <;> rcases h2 with ⟨_, rfl⟩ | ⟨_, rfl⟩ <;> simp)

end Keepalived
